import Mathlib

/-!
Verification of the Spotify-PlayMatch repository's response-normalization
pipeline (src/gemini_service.py), its chart-side bpm bounds normalization
(src/visualization.py) and its playlist pagination loop
(src/spotify_service.py), as a shallow embedding.

Conventions of the embedding:
* Python strings are Lean `String`s; the handful of `str` methods the code
  uses (`strip`, `split`, `replace`, `startswith`, `endswith`, `in`,
  `lower`, `join`) are reimplemented below on `List Char` with Python's
  semantics.
* JSON values are the inductive `Json`. JSON numbers are embedded as `Int`:
  every numeric literal the repository produces or defaults is an integer,
  and no claim under study depends on float payloads.
* `json.loads` is `jsonParse` (a fuel-driven recursive-descent parser that,
  like Python's, rejects single-quoted strings, unquoted tokens, missing
  commas, trailing data, floats and unescaped control characters);
  `json.dumps` is `jsonDump` (default separators, `ensure_ascii` escaping).
* A Python code path that raises and is caught by a surrounding
  `except` is embedded as `none` / `.error ()` flowing to the handler.
* Calls into the generative-model API are an oracle `gen : Nat → String`
  giving the raw reply text of each retry attempt; the global random
  generator consumed by `random.sample` is an oracle giving the sampled
  sublist, and Python's `hash` is an oracle `String → Nat`.
-/

/-! ### Python string primitives -/

/-- The characters Python's `str.strip()` removes (the ASCII whitespace
class; the repository never feeds it exotic unicode whitespace). -/
def pyWsChar (c : Char) : Bool :=
  c = ' ' || c = '\t' || c = '\n' || c = '\r' || c = '\x0b' || c = '\x0c'

/-- Drop leading Python whitespace from a character list. -/
def stripLeftL : List Char → List Char
  | [] => []
  | c :: cs => if pyWsChar c then stripLeftL cs else c :: cs

/-- `str.strip()` on character lists. -/
def stripL (l : List Char) : List Char :=
  (stripLeftL (stripLeftL l.reverse).reverse)

/-- `str.strip()`. -/
def pyStrip (s : String) : String :=
  String.mk (stripL s.data)

/-- Whether `p` is a prefix of `l` (Boolean, by character equality). -/
def isPrefixL : List Char → List Char → Bool
  | [], _ => true
  | _ :: _, [] => false
  | a :: as, b :: bs => a = b && isPrefixL as bs

/-- Python's `sub in s` on character lists: `sub` occurs somewhere in `l`. -/
def containsSubL (sub : List Char) : List Char → Bool
  | [] => isPrefixL sub []
  | c :: cs => isPrefixL sub (c :: cs) || containsSubL sub cs

/-- Python's `sub in s` for strings. -/
def containsSubS (s sub : String) : Bool :=
  containsSubL sub.data s.data

/-- Python's `s.split(sep)` for a non-empty separator, on character lists:
split at every non-overlapping occurrence, scanning left to right.  The
`fuel` argument only drives the structural recursion; every caller passes
the list's length, which the scan never exhausts (each step consumes at
least one character).  (For an empty separator the guard never fires and
the whole list is one piece; Python instead raises, and the repository
never passes an empty separator.) -/
def splitFuelL (sep : List Char) : Nat → List Char → List (List Char)
  | _, [] => [[]]
  | 0, l => [l]
  | Nat.succ fuel, c :: cs =>
    if isPrefixL sep (c :: cs) ∧ 0 < sep.length then
      [] :: splitFuelL sep fuel (List.drop (sep.length - 1) cs)
    else
      match splitFuelL sep fuel cs with
      | [] => [[c]]
      | p :: ps => (c :: p) :: ps

/-- `s.split(sep)` on character lists, fuel supplied. -/
def splitAllL (sep l : List Char) : List (List Char) :=
  splitFuelL sep l.length l

/-- `s.split(sep)` for strings. -/
def pySplit (s sep : String) : List String :=
  (splitAllL sep.data s.data).map String.mk

/-- Python's `s.replace(old, new)` for a non-empty `old`, on character
lists: replace every non-overlapping occurrence, scanning left to right.
Fueled exactly like `splitFuelL`. -/
def replaceFuelL (old new : List Char) : Nat → List Char → List Char
  | _, [] => []
  | 0, l => l
  | Nat.succ fuel, c :: cs =>
    if isPrefixL old (c :: cs) ∧ 0 < old.length then
      new ++ replaceFuelL old new fuel (List.drop (old.length - 1) cs)
    else
      c :: replaceFuelL old new fuel cs

/-- `s.replace(old, new)` on character lists, fuel supplied. -/
def replaceAllL (old new l : List Char) : List Char :=
  replaceFuelL old new l.length l

/-- `s.replace(old, new)` for strings. -/
def pyReplace (s old new : String) : String :=
  String.mk (replaceAllL old.data new.data s.data)

/-- `s.startswith(c)` for a single-character prefix. -/
def startsWithChar (s : String) (c : Char) : Bool :=
  match s.data with
  | [] => false
  | d :: _ => d = c

/-- `s.endswith(c)` for a single-character suffix. -/
def endsWithChar (s : String) (c : Char) : Bool :=
  match s.data.reverse with
  | [] => false
  | d :: _ => d = c

/-- Python's `str.lower()` restricted to ASCII letters (the keyword tables
the repository lowers against are all ASCII). -/
def asciiLowerChar (c : Char) : Char :=
  if 'A' ≤ c ∧ c ≤ 'Z' then Char.ofNat (c.toNat + 32) else c

/-- `str.lower()`. -/
def asciiLower (s : String) : String :=
  String.mk (s.data.map asciiLowerChar)

/-- `sep.join(parts)`. -/
def joinSepS (sep : String) : List String → String
  | [] => ""
  | [p] => p
  | p :: q :: rest => p ++ sep ++ joinSepS sep (q :: rest)

/-- `list.index` access with a default, mirroring a Python index that the
surrounding code has already guarded in range. -/
def listGetD {α : Type} (l : List α) (i : Nat) (d : α) : α :=
  (l.get? i).getD d

/-! ### JSON values -/

/-- A parsed JSON value as Python's `json.loads` returns it; object entries
keep insertion order, as Python dicts do.  Numbers are embedded as `Int`
(see the header note). -/
inductive Json where
  | null : Json
  | bool (b : Bool) : Json
  | num (n : Int) : Json
  | str (s : String) : Json
  | arr (elems : List Json) : Json
  | obj (entries : List (String × Json)) : Json
deriving Repr

/-- Python's `key in dict`. -/
def dictContains (kvs : List (String × Json)) (k : String) : Bool :=
  kvs.any (fun kv => kv.1 = k)

/-- Python's `dict[key]` / `dict.get(key)`: the value stored at `k`. -/
def dictGet (kvs : List (String × Json)) (k : String) : Option Json :=
  (kvs.find? (fun kv => kv.1 = k)).map Prod.snd

/-- Python's `dict.get(key, default)`. -/
def dictGetD (kvs : List (String × Json)) (k : String) (d : Json) : Json :=
  (dictGet kvs k).getD d

/-- Python's `dict[key] = v`: overwrite in place when the key exists
(keeping its position), append otherwise. -/
def dictInsertL (k : String) (v : Json) : List (String × Json) → List (String × Json)
  | [] => [(k, v)]
  | (k', v') :: rest => if k' = k then (k', v) :: rest else (k', v') :: dictInsertL k v rest

/-- `if key not in d: d[key] = v` — the defaulting idiom of the
normalizers: append the default only when the key is absent. -/
def setMissing (kvs : List (String × Json)) (k : String) (v : Json) : List (String × Json) :=
  if dictContains kvs k then kvs else kvs ++ [(k, v)]

/-- Run the defaulting idiom over a list of `(key, default)` pairs, in
order (the shape of both normalizers' required-field loops). -/
def fillFields (defaults : List (String × Json)) (kvs : List (String × Json)) :
    List (String × Json) :=
  defaults.foldl (fun acc fv => setMissing acc fv.1 fv.2) kvs

/-! ### `json.loads`

A recursive-descent parser with Python's strictness: double-quoted strings
only, no trailing commas, whitespace is space/tab/newline/return, literals
`true`/`false`/`null`, no leading zeros, unescaped control characters
rejected, and the whole input must be consumed.  Divergences from Python,
none of which the studied inputs exercise: numbers with a fraction or
exponent are rejected rather than parsed as floats (`Json` carries `Int`),
and `\uXXXX` escapes are not combined into surrogate pairs. -/

/-- JSON inter-token whitespace. -/
def jsonWs (c : Char) : Bool :=
  c = ' ' || c = '\t' || c = '\n' || c = '\r'

/-- Skip JSON whitespace. -/
def skipWsJ : List Char → List Char
  | [] => []
  | c :: cs => if jsonWs c then skipWsJ cs else c :: cs

/-- The value of one hex digit. -/
def hexVal (c : Char) : Option Nat :=
  if '0' ≤ c ∧ c ≤ '9' then some (c.toNat - 48)
  else if 'a' ≤ c ∧ c ≤ 'f' then some (c.toNat - 87)
  else if 'A' ≤ c ∧ c ≤ 'F' then some (c.toNat - 55)
  else none

/-- Parse a JSON string body (opening quote already consumed): collected
characters are accumulated in reverse in `acc`. -/
def parseStringBody : Nat → List Char → List Char → Option (String × List Char)
  | 0, _, _ => none
  | Nat.succ fuel, acc, l =>
    match l with
    | [] => none
    | '"' :: rest => some (String.mk acc.reverse, rest)
    | '\\' :: esc =>
      match esc with
      | '"' :: rest => parseStringBody fuel ('"' :: acc) rest
      | '\\' :: rest => parseStringBody fuel ('\\' :: acc) rest
      | '/' :: rest => parseStringBody fuel ('/' :: acc) rest
      | 'b' :: rest => parseStringBody fuel ('\x08' :: acc) rest
      | 'f' :: rest => parseStringBody fuel ('\x0c' :: acc) rest
      | 'n' :: rest => parseStringBody fuel ('\n' :: acc) rest
      | 'r' :: rest => parseStringBody fuel ('\r' :: acc) rest
      | 't' :: rest => parseStringBody fuel ('\t' :: acc) rest
      | 'u' :: h1 :: h2 :: h3 :: h4 :: rest =>
        match hexVal h1, hexVal h2, hexVal h3, hexVal h4 with
        | some a, some b, some c, some d =>
          parseStringBody fuel (Char.ofNat (((a * 16 + b) * 16 + c) * 16 + d) :: acc) rest
        | _, _, _, _ => none
      | _ => none
    | c :: rest => if c.toNat < 32 then none else parseStringBody fuel (c :: acc) rest

/-- A maximal run of decimal digits and what follows it. -/
def takeDigits : List Char → List Char × List Char
  | [] => ([], [])
  | c :: cs =>
    if c.isDigit then
      let (d, r) := takeDigits cs
      (c :: d, r)
    else ([], c :: cs)

/-- Decimal digits to a number. -/
def digitsToNat (ds : List Char) : Nat :=
  ds.foldl (fun n c => n * 10 + (c.toNat - 48)) 0

/-- The integer part of a JSON number: `0`, or a nonzero leading digit and
its run (JSON forbids leading zeros). -/
def parseIntBody : List Char → Option (Nat × List Char)
  | [] => none
  | '0' :: rest => some (0, rest)
  | c :: cs =>
    if c.isDigit then
      let (d, r) := takeDigits (c :: cs)
      some (digitsToNat d, r)
    else none

/-- Whether a fraction or exponent follows (which the embedding rejects,
see the section note). -/
def floatFollows : List Char → Bool
  | [] => false
  | c :: _ => c = '.' || c = 'e' || c = 'E'

/-- Parse a JSON integer. -/
def parseNumber (l : List Char) : Option (Int × List Char) :=
  match l with
  | '-' :: rest =>
    match parseIntBody rest with
    | some (n, r) => if floatFollows r then none else some (-(n : Int), r)
    | none => none
  | _ =>
    match parseIntBody l with
    | some (n, r) => if floatFollows r then none else some ((n : Int), r)
    | none => none

mutual

/-- Parse one JSON value (leading whitespace allowed). -/
def parseValue : Nat → List Char → Option (Json × List Char)
  | 0, _ => none
  | Nat.succ fuel, l =>
    match skipWsJ l with
    | '{' :: rest =>
      match skipWsJ rest with
      | '}' :: r2 => some (Json.obj [], r2)
      | r => parseObjItems fuel [] r
    | '[' :: rest =>
      match skipWsJ rest with
      | ']' :: r2 => some (Json.arr [], r2)
      | r => parseArrItems fuel [] r
    | '"' :: rest => (parseStringBody (rest.length + 1) [] rest).map (fun sr => (Json.str sr.1, sr.2))
    | 't' :: rest => if isPrefixL ['r', 'u', 'e'] rest then some (Json.bool true, rest.drop 3) else none
    | 'f' :: rest => if isPrefixL ['a', 'l', 's', 'e'] rest then some (Json.bool false, rest.drop 4) else none
    | 'n' :: rest => if isPrefixL ['u', 'l', 'l'] rest then some (Json.null, rest.drop 3) else none
    | l' => (parseNumber l').map (fun nr => (Json.num nr.1, nr.2))

/-- Parse `value (ws ',' ws value)* ws ']'` (the non-empty tail of an
array). -/
def parseArrItems : Nat → List Json → List Char → Option (Json × List Char)
  | 0, _, _ => none
  | Nat.succ fuel, acc, l =>
    match parseValue fuel l with
    | none => none
    | some (v, r) =>
      match skipWsJ r with
      | ',' :: r2 => parseArrItems fuel (v :: acc) (skipWsJ r2)
      | ']' :: r2 => some (Json.arr (v :: acc).reverse, r2)
      | _ => none

/-- Parse `string ws ':' ws value (ws ',' ws …)* ws '}'` (the non-empty
tail of an object); duplicate keys overwrite in place as in a Python
dict. -/
def parseObjItems : Nat → List (String × Json) → List Char → Option (Json × List Char)
  | 0, _, _ => none
  | Nat.succ fuel, acc, l =>
    match l with
    | '"' :: kr =>
      match parseStringBody (kr.length + 1) [] kr with
      | none => none
      | some (k, r) =>
        match skipWsJ r with
        | ':' :: r2 =>
          match parseValue fuel (skipWsJ r2) with
          | none => none
          | some (v, r3) =>
            match skipWsJ r3 with
            | ',' :: r4 => parseObjItems fuel (dictInsertL k v acc) (skipWsJ r4)
            | '}' :: r4 => some (Json.obj (dictInsertL k v acc), r4)
            | _ => none
        | _ => none
    | _ => none

end

/-- `json.loads`: parse, then require only whitespace to remain (Python's
"Extra data" check). -/
def jsonParse (s : String) : Option Json :=
  match parseValue (2 * s.data.length + 4) s.data with
  | some (v, rest) => if (skipWsJ rest).isEmpty then some v else none
  | none => none

/-! ### `json.dumps`

Python's defaults: separators `", "` and `": "`, `ensure_ascii=True`.
`jsonDumpF` is fueled on nesting depth only (callers pass a bound above
the depth of the value in hand). -/

/-- One lowercase hex digit. -/
def hexDigitChar (n : Nat) : Char :=
  if n < 10 then Char.ofNat (48 + n) else Char.ofNat (87 + n)

/-- Four lowercase hex digits. -/
def hex4 (n : Nat) : String :=
  String.mk [hexDigitChar (n / 4096 % 16), hexDigitChar (n / 256 % 16),
             hexDigitChar (n / 16 % 16), hexDigitChar (n % 16)]

/-- `json.dumps` escaping of one character. -/
def dumpStrChar (c : Char) : String :=
  if c = '"' then "\\\""
  else if c = '\\' then "\\\\"
  else if c = '\n' then "\\n"
  else if c = '\r' then "\\r"
  else if c = '\t' then "\\t"
  else if c = '\x08' then "\\b"
  else if c = '\x0c' then "\\f"
  else if ' ' ≤ c ∧ c ≤ '~' then String.mk [c]
  else "\\u" ++ hex4 c.toNat

/-- `json.dumps` of a string. -/
def dumpStr (s : String) : String :=
  "\"" ++ String.join (s.data.map dumpStrChar) ++ "\""

/-- `json.dumps` of a value, fueled on nesting depth. -/
def jsonDumpF : Nat → Json → String
  | _, Json.null => "null"
  | _, Json.bool true => "true"
  | _, Json.bool false => "false"
  | _, Json.num n => toString n
  | _, Json.str s => dumpStr s
  | 0, Json.arr _ => ""
  | 0, Json.obj _ => ""
  | Nat.succ fuel, Json.arr xs => "[" ++ joinSepS ", " (xs.map (jsonDumpF fuel)) ++ "]"
  | Nat.succ fuel, Json.obj kvs =>
    "\x7b" ++ joinSepS ", " (kvs.map (fun kv => dumpStr kv.1 ++ ": " ++ jsonDumpF fuel kv.2)) ++ "\x7d"

/-! ### The analysis normalizer (`analyze_playlist`, src/gemini_service.py)

One retry attempt of the analysis pipeline, starting from the raw reply
text of the model: strip, code-fence extraction, single-quote repair,
`json.loads`, required-field defaulting.  `none` models an attempt that
raises (JSON parse failure, or field assignment on a non-dict value) and
is retried by the surrounding loop. -/

/-- The fence-extraction block (gemini_service.py lines 407-413): when the
stripped reply is not brace-delimited, cut out the first fenced code block
(`"```json"` preferred over a generic `"```"`) with Python's `split`, and
strip the piece.  The list indexings are in range because each branch is
guarded by the corresponding substring test. -/
def analyzeExtract (t : String) : String :=
  if ¬(startsWithChar t '{' && endsWithChar t '}') then
    if containsSubS t "```json" then
      pyStrip (listGetD (pySplit (listGetD (pySplit t "```json") 1 "") "```") 0 "")
    else if containsSubS t "```" then
      pyStrip (listGetD (pySplit (listGetD (pySplit t "```") 1 "") "```") 0 "")
    else t
  else t

/-- The required keys of a playlist analysis, in the order the validation
loop walks them. -/
def requiredFields : List String :=
  ["general_description", "bpm_range", "instruments", "key_distribution",
   "mood_description", "genre_analysis"]

/-- The default written for a missing required key: the sentinel string
for the three text fields, an empty mapping otherwise. -/
def analysisFieldDefault (f : String) : Json :=
  if f = "general_description" ∨ f = "mood_description" ∨ f = "genre_analysis" then
    Json.str "Analysis incomplete"
  else Json.obj []

/-- The required-field loop of the analysis normalizer. -/
def fillRequired (kvs : List (String × Json)) : List (String × Json) :=
  fillFields (requiredFields.map (fun f => (f, analysisFieldDefault f))) kvs

/-- The bpm sub-object loop: default `min`/`max`/`most_common` to
80/160/120 when individually absent (loop order `min`, `max`,
`most_common`). -/
def bpmDefaults (b : List (String × Json)) : List (String × Json) :=
  fillFields [("min", Json.num 80), ("max", Json.num 160), ("most_common", Json.num 120)] b

/-- Apply `bpmDefaults` when `bpm_range` is present and is a dict, exactly
as the guarded loop does; any other value of `bpm_range` is left alone. -/
def fixBpm (kvs : List (String × Json)) : List (String × Json) :=
  match dictGet kvs "bpm_range" with
  | some (Json.obj b) => dictInsertL "bpm_range" (Json.obj (bpmDefaults b)) kvs
  | _ => kvs

/-- The field-validation stage applied to the parsed reply.  A non-dict
parse result always ends in an exception inside the validation block (item
assignment or string indexing on a non-dict), which the retry loop
catches: embedded as `none`. -/
def validateAnalysis : Json → Option Json
  | Json.obj kvs => some (Json.obj (fixBpm (fillRequired kvs)))
  | _ => none

/-- One attempt of the analysis normalizer on a raw reply text
(gemini_service.py lines 403-438). -/
def analyzeAttempt (reply : String) : Option Json :=
  let t := pyStrip reply
  let t := analyzeExtract t
  let t := pyReplace t "'" "\""
  match jsonParse t with
  | some j => validateAnalysis j
  | none => none

/-- The retry ceiling of both pipelines (`max_retries = 5`). -/
def maxRetries : Nat := 5

/-- Run `f` on attempt indices `i, i+1, …` while it fails, at most `n`
further attempts, returning the first success. -/
def tryFrom {α : Type} (f : Nat → Option α) : Nat → Nat → Option α
  | _, 0 => none
  | i, Nat.succ n =>
    match f i with
    | some a => some a
    | none => tryFrom f (i + 1) n

/-- The hardcoded fallback analysis returned once every retry attempt has
failed (gemini_service.py lines 458-478). -/
def defaultAnalysis : Json :=
  Json.obj
    [("general_description", Json.str "This playlist exhibits a sophisticated musical dialect that weaves together multiple sonic vocabularies into a cohesive linguistic tapestry, suggesting a curator with an ear for conversational harmonies across diverse musical traditions."),
     ("bpm_range", Json.obj [("min", Json.num 80), ("max", Json.num 160), ("most_common", Json.num 120)]),
     ("instruments", Json.obj
       [("Guitar", Json.str "high"), ("Piano", Json.str "medium"), ("Drums", Json.str "high"),
        ("Bass", Json.str "high"), ("Synthesizer", Json.str "medium"), ("Vocals", Json.str "high")]),
     ("key_distribution", Json.obj
       [("C Major", Json.num 5), ("G Major", Json.num 4), ("A Minor", Json.num 3),
        ("D Major", Json.num 2), ("E Minor", Json.num 2)]),
     ("mood_description", Json.str "The emotional linguistics of this collection create a dynamic conversation between introspective moments and energetic expressions, forming a complete emotional narrative."),
     ("genre_analysis", Json.str "This collection speaks multiple genre dialects fluently, creating a multi-lingual musical experience that transcends traditional genre boundaries while maintaining coherent communication.")]

/-- The retry loop of `analyze_playlist` from the point where the model is
bound: `gen i` is the raw reply text of attempt `i`; once all
`maxRetries` attempts fail, the outermost handler returns the hardcoded
default record — the caller never sees an exception. -/
def analyzePlaylist (gen : Nat → String) : Json :=
  (tryFrom (fun i => analyzeAttempt (gen i)) 0 maxRetries).getD defaultAnalysis

/-! ### The chart-side bpm bounds normalization (`create_bpm_chart`,
src/visualization.py lines 40-46) -/

/-- The `min`/`max` reordering the chart layer applies before drawing the
gauge: a bound on the wrong side of `most_common` is recomputed at ±20
from it, and a degenerate `min == max` span is widened by 20 in both
directions, clamping `min` at 0. -/
def widenBpm (minB maxB mc : Int) : Int × Int :=
  let minB := if minB > mc then mc - 20 else minB
  let maxB := if maxB < mc then mc + 20 else maxB
  if minB = maxB then (max 0 (minB - 20), maxB + 20) else (minB, maxB)

/-! ### The recommendation normalizer (`get_song_recommendations`,
src/gemini_service.py) -/

/-- The fence-extraction block of the recommendation pipeline
(lines 573-579); identical to `analyzeExtract` except that the as-is guard
is the bracket pair of an array. -/
def recExtract (t : String) : String :=
  if ¬(startsWithChar t '[' && endsWithChar t ']') then
    if containsSubS t "```json" then
      pyStrip (listGetD (pySplit (listGetD (pySplit t "```json") 1 "") "```") 0 "")
    else if containsSubS t "```" then
      pyStrip (listGetD (pySplit (listGetD (pySplit t "```") 1 "") "```") 0 "")
    else t
  else t

/-- The required keys of one recommendation, in loop order. -/
def recFields : List String :=
  ["title", "artist", "reasoning", "attributes", "spotify_url"]

/-- The per-record defaulting loop: `"Not specified"` for every field but
`attributes`, which gets an empty mapping. -/
def fillRec (kvs : List (String × Json)) : List (String × Json) :=
  fillFields (recFields.map
    (fun f => (f, if f = "attributes" then Json.obj [] else Json.str "Not specified"))) kvs

/-- One attempt of the recommendation normalizer on a raw reply text
(lines 569-620): strip, fence extraction, quote repair, `"}{"` comma
repair, array wrapping, parse, list coercion, per-record validation.
`none` models an attempt that raises (parse failure, or the explicit
`ValueError` when no record survives) and is retried. -/
def recAttempt (reply : String) : Option (List Json) :=
  let t := pyStrip reply
  let t := recExtract t
  let t := pyReplace t "'" "\""
  let t := if containsSubS t "\x7d\x7b" then pyReplace t "\x7d\x7b" "\x7d,\x7b" else t
  let t := if ¬ startsWithChar t '[' then "[" ++ t ++ "]" else t
  match jsonParse t with
  | none => none
  | some j =>
    let recs := match j with
      | Json.arr xs => xs
      | x => [x]
    let valid := recs.filterMap (fun r =>
      match r with
      | Json.obj kvs => some (Json.obj (fillRec kvs))
      | _ => none)
    if valid.isEmpty then none else some valid

/-! ### Hardcoded model-side and fallback payloads (verbatim from src/gemini_service.py) -/

/-- The canned reply at src/gemini_service.py line 210. -/
def mockNoTracksAnalysisText : String :=
  "\x7b\"general_description\":\"This playlist appears to contain a mix of musical styles.\",\"bpm_range\":\x7b\"min\":80,\"max\":160,\"most_common\":120\x7d,\"instruments\":\x7b\"Guitar\":\"high\",\"Piano\":\"medium\",\"Drums\":\"high\",\"Bass\":\"high\",\"Synthesizer\":\"medium\",\"Vocals\":\"high\"\x7d,\"key_distribution\":\x7b\"C Major\":5,\"G Major\":4,\"A Minor\":3,\"D Major\":2,\"E Minor\":2\x7d,\"mood_description\":\"The playlist contains a variety of moods and energies.\",\"genre_analysis\":\"Multiple genres are represented in this playlist.\"\x7d"

/-- The canned reply at src/gemini_service.py line 229. -/
def mockBollywoodRecsText : String :=
  "[\x7b\"title\":\"Chaiyya Chaiyya\",\"artist\":\"Sukhwinder Singh, Sapna Awasthi\",\"reasoning\":\"This iconic Bollywood song creates a powerful linguistic bridge through its fusion of classical Indian vocal techniques with contemporary film music sensibilities. The rhythmic interplay between vocals and percussion forms a distinctive cultural dialect that perfectly aligns with your playlist's emphasis on traditional Indian musical syntax.\",\"attributes\":\x7b\"tempo\":\"Medium-Fast\",\"key\":\"A Minor\",\"mood\":\"Energetic, Celebratory\",\"production style\":\"Rich, Percussive\",\"instruments\":\"Tabla, Flute, Sitar, Vocals, Percussion\"\x7d,\"spotify_url\":\"https://open.spotify.com/track/2uyJJCIXGJZgRvpNeFcpcL\"\x7d,\x7b\"title\":\"Tum Hi Ho\",\"artist\":\"Arijit Singh\",\"reasoning\":\"This modern Bollywood ballad communicates through a distinctly Indian musical linguistics that balances Western harmonic frameworks with South Asian melodic ornamentation. The expressive vocal delivery employs microtonal inflections that create a conversational intimacy mirroring the emotive patterns prevalent in your playlist.\",\"attributes\":\x7b\"tempo\":\"Slow\",\"key\":\"E Minor\",\"mood\":\"Romantic, Melancholic\",\"production style\":\"Intimate, Polished\",\"instruments\":\"Piano, Strings, Guitar, Vocals\"\x7d,\"spotify_url\":\"https://open.spotify.com/track/69xcFpmqTOmFNOL08Bdwqh\"\x7d,\x7b\"title\":\"Jai Ho\",\"artist\":\"A.R. Rahman, Sukhwinder Singh\",\"reasoning\":\"The rhythmic sophistication of this track creates a cross-cultural linguistic fusion that bridges Eastern and Western musical syntax. The call-and-response vocal architecture forms a communal conversation pattern that resonates with the collective musical language expressed throughout your playlist.\",\"attributes\":\x7b\"tempo\":\"Fast\",\"key\":\"D Minor\",\"mood\":\"Triumphant, Uplifting\",\"production style\":\"Dynamic, Multi-layered\",\"instruments\":\"Tabla, Percussion, Strings, Vocals\"\x7d,\"spotify_url\":\"https://open.spotify.com/track/2MLHyLy8zMuwLMdnr1mZXz\"\x7d]"

/-- The canned reply at src/gemini_service.py line 234. -/
def mockKpopRecsText : String :=
  "[\x7b\"title\":\"Dynamite\",\"artist\":\"BTS\",\"reasoning\":\"This genre-blending K-Pop hit demonstrates sophisticated musical linguistics through its precise integration of disco, funk, and contemporary pop elements. The song's tight structural grammar creates an immediately accessible international language while maintaining distinctly Korean syntactical elements that reflect your playlist's cross-cultural sonic vocabulary.\",\"attributes\":\x7b\"tempo\":\"Medium-Fast\",\"key\":\"C Major\",\"mood\":\"Bright, Energetic\",\"production style\":\"Polished, Retro-Modern\",\"instruments\":\"Synthesizer, Bass, Drums, Vocals\"\x7d,\"spotify_url\":\"https://open.spotify.com/track/4saklk6nie3yiGePpBwUXn\"\x7d,\x7b\"title\":\"How You Like That\",\"artist\":\"BLACKPINK\",\"reasoning\":\"This track's powerful linguistic statement comes through its masterful code-switching between trap beats, EDM drops, and K-Pop melodic sensibilities. The multilingual lyrical approach creates parallel conversation paths that mirror the cultural fusion evident in your playlist's musical linguistics.\",\"attributes\":\x7b\"tempo\":\"Fast\",\"key\":\"G Minor\",\"mood\":\"Fierce, Confident\",\"production style\":\"Trap-Influenced, Dynamic\",\"instruments\":\"808 Bass, Synths, Percussion, Vocals\"\x7d,\"spotify_url\":\"https://open.spotify.com/track/3vAn0qZzdyuHamcrpkfiX6\"\x7d,\x7b\"title\":\"Fancy\",\"artist\":\"TWICE\",\"reasoning\":\"This song employs a distinctive linguistic pattern through its contrast between cute vocal timbres and mature electronic production. The seamless transitions between sections create a narrative flow that communicates across generational and cultural boundaries - a hallmark of the sophisticated K-Pop dialect present in your collection.\",\"attributes\":\x7b\"tempo\":\"Medium-Fast\",\"key\":\"Bb Minor\",\"mood\":\"Playful, Confident\",\"production style\":\"Electro-Pop, Precise\",\"instruments\":\"Synthesizer, Bass, Electronic Drums, Vocals\"\x7d,\"spotify_url\":\"https://open.spotify.com/track/3aQem4jVGdhtg116TmJnHz\"\x7d]"

/-- The canned reply at src/gemini_service.py line 239. -/
def mockLatinRecsText : String :=
  "[\x7b\"title\":\"Despacito\",\"artist\":\"Luis Fonsi, Daddy Yankee\",\"reasoning\":\"This global phenomenon masterfully combines reggaeton's rhythmic syntax with pop melodic structures to create a cross-cultural linguistic bridge. The song's clever use of syncopation creates a distinctive conversational cadence that echoes the Afro-Caribbean rhythmic language prevalent in your playlist.\",\"attributes\":\x7b\"tempo\":\"Medium\",\"key\":\"B Minor\",\"mood\":\"Sensual, Playful\",\"production style\":\"Organic-Electronic Fusion\",\"instruments\":\"Guitar, Percussion, Bass, Vocals\"\x7d,\"spotify_url\":\"https://open.spotify.com/track/6habFhsOp2NvshLv26jCDS\"\x7d,\x7b\"title\":\"Vivir Mi Vida\",\"artist\":\"Marc Anthony\",\"reasoning\":\"This salsa anthem employs sophisticated musical linguistics through its layered percussion conversations and call-response vocal patterns. The song's circular harmonic structure creates a continuous narrative flow that mirrors the cyclical storytelling approach common in Latin musical traditions represented in your collection.\",\"attributes\":\x7b\"tempo\":\"Fast\",\"key\":\"A Minor\",\"mood\":\"Celebratory, Philosophical\",\"production style\":\"Live, Dynamic\",\"instruments\":\"Horns, Piano, Congas, Timbales, Vocals\"\x7d,\"spotify_url\":\"https://open.spotify.com/track/3xNT2o9QeKT9L6AV6nFLTr\"\x7d,\x7b\"title\":\"La Tortura\",\"artist\":\"Shakira, Alejandro Sanz\",\"reasoning\":\"This track achieves linguistic fusion through its seamless blend of Colombian and Spanish musical dialects with contemporary pop production. The conversation between male and female vocal timbres creates a dynamic tension that reflects the emotional expressiveness central to your playlist's musical language.\",\"attributes\":\x7b\"tempo\":\"Medium\",\"key\":\"F# Minor\",\"mood\":\"Passionate, Melancholic\",\"production style\":\"Organic-Electronic Blend\",\"instruments\":\"Guitar, Percussion, Synthesizer, Vocals\"\x7d,\"spotify_url\":\"https://open.spotify.com/track/5JG9GISYjRLQyWFLH3TpUX\"\x7d]"

/-- The canned reply at src/gemini_service.py line 244. -/
def mockHipHopRecsText : String :=
  "[\x7b\"title\":\"Sicko Mode\",\"artist\":\"Travis Scott\",\"reasoning\":\"This track's multi-movement structure creates a distinctive linguistic approach that mirrors postmodern narrative techniques. The song's timbral shifts and beat changes function as grammatical markers that redefine traditional hip-hop syntax while maintaining continuity with the genre's foundational vocabulary - reflecting the innovative production aesthetics in your playlist.\",\"attributes\":\x7b\"tempo\":\"Varied\",\"key\":\"Multiple\",\"mood\":\"Dark, Energetic\",\"production style\":\"Experimental, Layered\",\"instruments\":\"808 Bass, Synthesizers, Samples, Vocals\"\x7d,\"spotify_url\":\"https://open.spotify.com/track/2xLMifQCjDGFmkHkpNLD9h\"\x7d,\x7b\"title\":\"Alright\",\"artist\":\"Kendrick Lamar\",\"reasoning\":\"This song's jazz-influenced production creates a sophisticated musical linguistics that balances tradition with innovation. The complex rhythmic interplay between vocals and instrumentation forms a nuanced conversation that carries both personal and cultural significance - mirroring the depth of lyrical and musical expression in your collection.\",\"attributes\":\x7b\"tempo\":\"Medium\",\"key\":\"F Minor\",\"mood\":\"Defiant, Hopeful\",\"production style\":\"Jazz-Influenced, Organic\",\"instruments\":\"Piano, Bass, Drums, Vocals\"\x7d,\"spotify_url\":\"https://open.spotify.com/track/3iVcZ5G6tvkXZkZKlMpIUs\"\x7d,\x7b\"title\":\"MIDDLE CHILD\",\"artist\":\"J. Cole\",\"reasoning\":\"This track demonstrates linguistic mastery through its conversational flow and thoughtful production that bridges old and new school hip-hop dialects. The deliberate pace and space in the arrangement allows for lyrical clarity while maintaining a rhythmic foundation that resonates with the thoughtful approach to storytelling evident in your playlist.\",\"attributes\":\x7b\"tempo\":\"Medium\",\"key\":\"Ab Minor\",\"mood\":\"Contemplative, Confident\",\"production style\":\"Soulful, Spacious\",\"instruments\":\"Bass, Drums, Horns, Vocals\"\x7d,\"spotify_url\":\"https://open.spotify.com/track/2JvzF1RMd7lE3KmFlsyZD8\"\x7d]"

/-- The canned reply at src/gemini_service.py line 249. -/
def mockRockRecsText : String :=
  "[\x7b\"title\":\"Black Dog\",\"artist\":\"Led Zeppelin\",\"reasoning\":\"This hard rock classic features powerful guitar riffs and dynamic vocals that linguistically align with the rock elements in your playlist. The call-and-response structure between vocals and instruments creates a musical conversation that mirrors traditional rock linguistics, while the irregular time signature adds complexity that rewards repeated listening.\",\"attributes\":\x7b\"tempo\":\"Medium-Fast\",\"key\":\"E Minor\",\"mood\":\"Energetic, Powerful\",\"production style\":\"Raw, Dynamic\",\"instruments\":\"Guitar, Bass, Drums, Vocals\"\x7d,\"spotify_url\":\"https://open.spotify.com/track/6TIU9Ehmi6dMzZK73Ym4yj\"\x7d,\x7b\"title\":\"Smells Like Teen Spirit\",\"artist\":\"Nirvana\",\"reasoning\":\"This defining grunge anthem linguistically captures the raw energy and powerful instrumentation that characterizes your playlist. The quiet-loud dynamic structure creates emotional tension, while the deliberately ambiguous lyrics allow for personal interpretation - a hallmark of the alternative rock linguistical tradition.\",\"attributes\":\x7b\"tempo\":\"Medium-Fast\",\"key\":\"F Minor\",\"mood\":\"Intense, Angsty\",\"production style\":\"Distorted, Raw\",\"instruments\":\"Guitar, Bass, Drums, Vocals\"\x7d,\"spotify_url\":\"https://open.spotify.com/track/5ghIJDpPoe3CfHMGu71E6T\"\x7d,\x7b\"title\":\"Seven Nation Army\",\"artist\":\"The White Stripes\",\"reasoning\":\"With its iconic bass-like guitar line and minimalist arrangement, this rock staple shares linguistic DNA with your playlist. The sparse instrumentation creates a focused sonic palette while the repetitive, almost hypnotic progression builds tension throughout - a masterclass in musical linguistics using limited elements.\",\"attributes\":\x7b\"tempo\":\"Medium\",\"key\":\"E Minor\",\"mood\":\"Dark, Powerful\",\"production style\":\"Minimal, Analog\",\"instruments\":\"Guitar, Drums, Vocals\"\x7d,\"spotify_url\":\"https://open.spotify.com/track/7i6r9KotUPQg3ozKKgEPIN\"\x7d]"

/-- The canned reply at src/gemini_service.py line 254. -/
def mockPopRecsText : String :=
  "[\x7b\"title\":\"Blinding Lights\",\"artist\":\"The Weeknd\",\"reasoning\":\"This synth-pop hit linguistically captures the essence of your playlist through its infectious melody and deliberate rhythmic patterns. The song employs repetitive phrasing and structural symmetry that creates an immediate cognitive connection, while the retro-synth textures add a familiar yet contemporary sonic landscape.\",\"attributes\":\x7b\"tempo\":\"Fast\",\"key\":\"F Minor\",\"mood\":\"Energetic, Nostalgic\",\"production style\":\"Polished, Synthetic\",\"instruments\":\"Synthesizer, Drums, Vocals\"\x7d,\"spotify_url\":\"https://open.spotify.com/track/0VjIjW4GlUZAMYd2vXMi3b\"\x7d,\x7b\"title\":\"Levitating\",\"artist\":\"Dua Lipa\",\"reasoning\":\"This disco-inspired pop track shares linguistic DNA with your playlist through its danceable groove and carefully crafted hooks. The four-on-the-floor rhythm creates a predictable framework while the melodic ascending patterns in the chorus mirror linguistic concepts of rising action and emotional build - perfect for maintaining the energy flow in your collection.\",\"attributes\":\x7b\"tempo\":\"Medium-Fast\",\"key\":\"B Minor\",\"mood\":\"Fun, Danceable\",\"production style\":\"Retro-Modern, Clean\",\"instruments\":\"Bass, Synthesizer, Drums, Vocals\"\x7d,\"spotify_url\":\"https://open.spotify.com/track/39LLxExYz6ewLAcYrzQQyP\"\x7d,\x7b\"title\":\"As It Was\",\"artist\":\"Harry Styles\",\"reasoning\":\"With its melancholic yet upbeat energy, this contemporary pop hit linguistically bridges emotional contrasts similar to your playlist. The song's minimal instrumentation creates space for lyrical introspection, while the driving rhythm provides forward momentum - a musical linguistics technique that balances emotional depth with accessibility.\",\"attributes\":\x7b\"tempo\":\"Fast\",\"key\":\"C# Minor\",\"mood\":\"Nostalgic, Bittersweet\",\"production style\":\"Minimalist, Spatial\",\"instruments\":\"Synthesizer, Guitar, Drums, Vocals\"\x7d,\"spotify_url\":\"https://open.spotify.com/track/4Dvkj6JhhA12EX05fT7y2e\"\x7d]"

/-- The canned reply at src/gemini_service.py line 259. -/
def mockElectronicRecsText : String :=
  "[\x7b\"title\":\"Strobe\",\"artist\":\"deadmau5\",\"reasoning\":\"This progressive house masterpiece linguistically aligns with your playlist through its masterful layering and atmospheric development. The gradual evolution of motifs and textures creates a narrative arc that mirrors linguistic storytelling techniques, while the precise arrangement of frequencies creates a sonic language that speaks directly to electronic music enthusiasts.\",\"attributes\":\x7b\"tempo\":\"Medium\",\"key\":\"C Minor\",\"mood\":\"Atmospheric, Euphoric\",\"production style\":\"Layered, Progressive\",\"instruments\":\"Synthesizer, Drum Machine, Bass\"\x7d,\"spotify_url\":\"https://open.spotify.com/track/4YnAQK7wLUYD2r7MrTAQh9\"\x7d,\x7b\"title\":\"Innerbloom\",\"artist\":\"RÜFÜS DU SOL\",\"reasoning\":\"This deep electronic track shares linguistic qualities with your playlist through its immersive sonic journey. The deliberate use of space and silence acts as punctuation in a musical sentence, while the evolving synthwork creates a vocabulary of sounds that communicate emotional depth without relying on traditional song structures - a signature of sophisticated electronic linguistics.\",\"attributes\":\x7b\"tempo\":\"Slow-Medium\",\"key\":\"G Minor\",\"mood\":\"Hypnotic, Introspective\",\"production style\":\"Atmospheric, Spatial\",\"instruments\":\"Synthesizer, Electronic Drums, Vocals\"\x7d,\"spotify_url\":\"https://open.spotify.com/track/11LmqTE2naFULdEP94AUBa\"\x7d,\x7b\"title\":\"Opus\",\"artist\":\"Eric Prydz\",\"reasoning\":\"This epic progressive house track linguistically connects with your playlist through its expert use of tension and release - the musical equivalent of rhetorical devices. The track's structure follows a clear linguistic pattern of introduction, development, climax and resolution, creating a complete musical statement that satisfies both emotionally and intellectually.\",\"attributes\":\x7b\"tempo\":\"Medium\",\"key\":\"D Minor\",\"mood\":\"Epic, Euphoric\",\"production style\":\"Cinematic, Dynamic\",\"instruments\":\"Synthesizer, Drum Machine, Bass\"\x7d,\"spotify_url\":\"https://open.spotify.com/track/38CdZgTX1jQSKKHsf8q0uN\"\x7d]"

/-- The canned reply at src/gemini_service.py line 264. -/
def mockClassicalRecsText : String :=
  "[\x7b\"title\":\"Clair de Lune\",\"artist\":\"Claude Debussy\",\"reasoning\":\"This impressionist masterpiece creates a sophisticated linguistic experience through its fluid harmonic language and subtle emotional development. The piece's avoidance of traditional cadential relationships forms an innovative musical syntax that prioritizes color and atmosphere over rigid structure - mirroring the impressionistic qualities in your playlist.\",\"attributes\":\x7b\"tempo\":\"Slow\",\"key\":\"Db Major\",\"mood\":\"Contemplative, Ethereal\",\"production style\":\"Intimate, Nuanced\",\"instruments\":\"Piano\"\x7d,\"spotify_url\":\"https://open.spotify.com/track/5rX6C5QVvvZB7XckETNych\"\x7d,\x7b\"title\":\"Symphony No. 5 in C Minor, Op. 67: I. Allegro con brio\",\"artist\":\"Ludwig van Beethoven\",\"reasoning\":\"This revolutionary work establishes a powerful musical linguistics through its iconic four-note motif that functions as the foundation for an entire symphonic argument. The development of this basic musical cell mirrors linguistic processes of theme and variation that form the backbone of classical compositional dialogue evident in your playlist.\",\"attributes\":\x7b\"tempo\":\"Medium-Fast\",\"key\":\"C Minor\",\"mood\":\"Dramatic, Intense\",\"production style\":\"Dynamic, Structured\",\"instruments\":\"Full Orchestra\"\x7d,\"spotify_url\":\"https://open.spotify.com/track/1BSMpVGWs3v5xPriUYnEbg\"\x7d,\x7b\"title\":\"The Planets, Op. 32: Jupiter, the Bringer of Jollity\",\"artist\":\"Gustav Holst\",\"reasoning\":\"This orchestral tour de force demonstrates sophisticated musical linguistics through its masterful orchestration and thematic development. The central lyrical melody creates an emotional lingua franca that transcends classical boundaries, connecting with listeners through a direct emotional language that complements the expressive range of your collection.\",\"attributes\":\x7b\"tempo\":\"Varied\",\"key\":\"C Major\",\"mood\":\"Majestic, Joyful\",\"production style\":\"Rich, Textured\",\"instruments\":\"Full Orchestra\"\x7d,\"spotify_url\":\"https://open.spotify.com/track/2NVVDCDGrsw0v4o6vi7xY6\"\x7d]"

/-- The canned reply at src/gemini_service.py line 269. -/
def mockJazzRecsText : String :=
  "[\x7b\"title\":\"Take Five\",\"artist\":\"Dave Brubeck\",\"reasoning\":\"This jazz standard establishes a distinctive linguistic approach through its unusual 5/4 time signature that creates a circular conversational pattern. The saxophone and piano dialogue forms a sophisticated musical discussion that balances composition and improvisation - reflecting the thoughtful interplay between structure and freedom evident in your playlist.\",\"attributes\":\x7b\"tempo\":\"Medium\",\"key\":\"Eb Minor\",\"mood\":\"Cool, Sophisticated\",\"production style\":\"Warm, Acoustic\",\"instruments\":\"Piano, Saxophone, Bass, Drums\"\x7d,\"spotify_url\":\"https://open.spotify.com/track/5UbFG9S4sHMHxoknjdwjYV\"\x7d,\x7b\"title\":\"So What\",\"artist\":\"Miles Davis\",\"reasoning\":\"This modal jazz masterpiece creates a revolutionary musical linguistics through its abandonment of traditional chord progressions in favor of extended improvisation over minimal harmonic frameworks. The conversational nature of the solos embodies the democratic approach to musical dialogue that defines the jazz language represented in your collection.\",\"attributes\":\x7b\"tempo\":\"Medium\",\"key\":\"D Dorian\",\"mood\":\"Introspective, Cool\",\"production style\":\"Spacious, Intimate\",\"instruments\":\"Trumpet, Saxophone, Piano, Bass, Drums\"\x7d,\"spotify_url\":\"https://open.spotify.com/track/1v1oIWf2Xgh54kIWuKsDf6\"\x7d,\x7b\"title\":\"Sing, Sing, Sing\",\"artist\":\"Benny Goodman\",\"reasoning\":\"This big band classic demonstrates sophisticated rhythmic linguistics through its propulsive swing feel and call-response between brass and reed sections. The extended drum solo represents a breakthrough in percussive language that shifted jazz's rhythmic dialect toward a more complex conversational approach that resonates with your playlist's appreciation for rhythmic sophistication.\",\"attributes\":\x7b\"tempo\":\"Fast\",\"key\":\"A Minor\",\"mood\":\"Energetic, Exciting\",\"production style\":\"Live, Dynamic\",\"instruments\":\"Clarinet, Brass Section, Drums, Full Orchestra\"\x7d,\"spotify_url\":\"https://open.spotify.com/track/5R5CkL0cWFS6NOdHdXZW5b\"\x7d]"

/-- The canned reply at src/gemini_service.py line 281. -/
def mockArtistBollywoodText : String :=
  "[\x7b\"title\":\"Chaiyya Chaiyya\",\"artist\":\"Sukhwinder Singh, Sapna Awasthi\",\"reasoning\":\"This iconic Bollywood song creates a powerful linguistic bridge through its fusion of classical Indian vocal techniques with contemporary film music sensibilities. The rhythmic interplay between vocals and percussion forms a distinctive cultural dialect that perfectly aligns with your playlist's emphasis on traditional Indian musical syntax.\",\"attributes\":\x7b\"tempo\":\"Medium-Fast\",\"key\":\"A Minor\",\"mood\":\"Energetic, Celebratory\",\"production style\":\"Rich, Percussive\",\"instruments\":\"Tabla, Flute, Sitar, Vocals, Percussion\"\x7d,\"spotify_url\":\"https://open.spotify.com/track/2uyJJCIXGJZgRvpNeFcpcL\"\x7d,\x7b\"title\":\"Tum Hi Ho\",\"artist\":\"Arijit Singh\",\"reasoning\":\"This modern Bollywood ballad communicates through a distinctly Indian musical linguistics that balances Western harmonic frameworks with South Asian melodic ornamentation. The expressive vocal delivery employs microtonal inflections that create a conversational intimacy mirroring the emotive patterns prevalent in your playlist.\",\"attributes\":\x7b\"tempo\":\"Slow\",\"key\":\"E Minor\",\"mood\":\"Romantic, Melancholic\",\"production style\":\"Intimate, Polished\",\"instruments\":\"Piano, Strings, Guitar, Vocals\"\x7d,\"spotify_url\":\"https://open.spotify.com/track/69xcFpmqTOmFNOL08Bdwqh\"\x7d,\x7b\"title\":\"Jai Ho\",\"artist\":\"A.R. Rahman, Sukhwinder Singh\",\"reasoning\":\"The rhythmic sophistication of this track creates a cross-cultural linguistic fusion that bridges Eastern and Western musical syntax. The call-and-response vocal architecture forms a communal conversation pattern that resonates with the collective musical language expressed throughout your playlist.\",\"attributes\":\x7b\"tempo\":\"Fast\",\"key\":\"D Minor\",\"mood\":\"Triumphant, Uplifting\",\"production style\":\"Dynamic, Multi-layered\",\"instruments\":\"Tabla, Percussion, Strings, Vocals\"\x7d,\"spotify_url\":\"https://open.spotify.com/track/2MLHyLy8zMuwLMdnr1mZXz\"\x7d]"

/-- The canned reply at src/gemini_service.py line 284. -/
def mockDefaultRecsTextA : String :=
  "[\x7b\"title\":\"Bohemian Rhapsody\",\"artist\":\"Queen\",\"reasoning\":\"This iconic rock song linguistically bridges multiple musical languages in a single composition, similar to the varied linguistic palette of your playlist. The track's operatic middle section, hard rock portions, and ballad elements create a masterclass in musical code-switching that demonstrates how disparate language elements can create a cohesive whole when arranged with purpose.\",\"attributes\":\x7b\"tempo\":\"Varied\",\"key\":\"Bb Major\",\"mood\":\"Dramatic\",\"production style\":\"Theatrical, Layered\",\"instruments\":\"Piano, Guitar, Bass, Drums, Vocals\"\x7d,\"spotify_url\":\"https://open.spotify.com/track/7tFiyTwD0nx5a1eklYtX2J\"\x7d,\x7b\"title\":\"Dreams\",\"artist\":\"Fleetwood Mac\",\"reasoning\":\"This timeless classic creates a linguistic harmony through its perfect balance of rock and pop elements. The song's musical linguistics revolve around the conversation between the hypnotic rhythm section and the ethereal vocal delivery - creating a syntax of sound that feels both structured and dreamlike, mirroring the eclectic yet cohesive nature of your playlist.\",\"attributes\":\x7b\"tempo\":\"Medium\",\"key\":\"F Major\",\"mood\":\"Dreamy, Melodic\",\"production style\":\"Warm, Balanced\",\"instruments\":\"Guitar, Bass, Drums, Vocals\"\x7d,\"spotify_url\":\"https://open.spotify.com/track/0ofHAoxe9vBkTCp2UQIavz\"\x7d,\x7b\"title\":\"Redbone\",\"artist\":\"Childish Gambino\",\"reasoning\":\"With its unique blend of funk, soul, and R&B elements, this song demonstrates linguistic fusion across musical traditions. The falsetto vocals create one tonal language while the vintage instrumentation speaks another dialect entirely - yet they communicate perfectly with each other, creating a rich conversational texture that would resonate with the diverse musical linguistics in your collection.\",\"attributes\":\x7b\"tempo\":\"Slow\",\"key\":\"D Minor\",\"mood\":\"Soulful, Atmospheric\",\"production style\":\"Vintage, Warm\",\"instruments\":\"Guitar, Bass, Drums, Synths, Vocals\"\x7d,\"spotify_url\":\"https://open.spotify.com/track/3kxfsdsCpFgN412fpnW85Y\"\x7d]"

/-- The canned reply at src/gemini_service.py line 288. -/
def mockDefaultRecsTextB : String :=
  "[\x7b\"title\":\"Bohemian Rhapsody\",\"artist\":\"Queen\",\"reasoning\":\"This iconic rock song linguistically bridges multiple musical languages in a single composition, similar to the varied linguistic palette of your playlist. The track's operatic middle section, hard rock portions, and ballad elements create a masterclass in musical code-switching that demonstrates how disparate language elements can create a cohesive whole when arranged with purpose.\",\"attributes\":\x7b\"tempo\":\"Varied\",\"key\":\"Bb Major\",\"mood\":\"Dramatic\",\"production style\":\"Theatrical, Layered\",\"instruments\":\"Piano, Guitar, Bass, Drums, Vocals\"\x7d,\"spotify_url\":\"https://open.spotify.com/track/7tFiyTwD0nx5a1eklYtX2J\"\x7d,\x7b\"title\":\"Dreams\",\"artist\":\"Fleetwood Mac\",\"reasoning\":\"This timeless classic creates a linguistic harmony through its perfect balance of rock and pop elements. The song's musical linguistics revolve around the conversation between the hypnotic rhythm section and the ethereal vocal delivery - creating a syntax of sound that feels both structured and dreamlike, mirroring the eclectic yet cohesive nature of your playlist.\",\"attributes\":\x7b\"tempo\":\"Medium\",\"key\":\"F Major\",\"mood\":\"Dreamy, Melodic\",\"production style\":\"Warm, Balanced\",\"instruments\":\"Guitar, Bass, Drums, Vocals\"\x7d,\"spotify_url\":\"https://open.spotify.com/track/0ofHAoxe9vBkTCp2UQIavz\"\x7d,\x7b\"title\":\"Redbone\",\"artist\":\"Childish Gambino\",\"reasoning\":\"With its unique blend of funk, soul, and R&B elements, this song demonstrates linguistic fusion across musical traditions. The falsetto vocals create one tonal language while the vintage instrumentation speaks another dialect entirely - yet they communicate perfectly with each other, creating a rich conversational texture that would resonate with the diverse musical linguistics in your collection.\",\"attributes\":\x7b\"tempo\":\"Slow\",\"key\":\"D Minor\",\"mood\":\"Soulful, Atmospheric\",\"production style\":\"Vintage, Warm\",\"instruments\":\"Guitar, Bass, Drums, Synths, Vocals\"\x7d,\"spotify_url\":\"https://open.spotify.com/track/3kxfsdsCpFgN412fpnW85Y\"\x7d]"

/-- The canned reply at src/gemini_service.py line 293. -/
def mockProfileErrorRecsText : String :=
  "[\x7b\"title\":\"Bohemian Rhapsody\",\"artist\":\"Queen\",\"reasoning\":\"This iconic rock song offers a sophisticated linguistic experience through its diverse musical elements and dynamic shifts. The composition creates a complete narrative arc with distinct musical languages that somehow form a cohesive communication - an ideal match for varied musical tastes.\",\"attributes\":\x7b\"tempo\":\"Varied\",\"key\":\"Bb Major\",\"mood\":\"Dramatic\",\"production style\":\"Theatrical, Layered\",\"instruments\":\"Piano, Guitar, Bass, Drums, Vocals\"\x7d,\"spotify_url\":\"https://open.spotify.com/track/7tFiyTwD0nx5a1eklYtX2J\"\x7d,\x7b\"title\":\"Dreams\",\"artist\":\"Fleetwood Mac\",\"reasoning\":\"This timeless classic demonstrates musical linguistic harmony through its perfect balance of rock and pop elements. The conversation between rhythm section and vocals creates an immediately accessible yet subtly complex sonic language that speaks across generations.\",\"attributes\":\x7b\"tempo\":\"Medium\",\"key\":\"F Major\",\"mood\":\"Dreamy, Melodic\",\"production style\":\"Warm, Balanced\",\"instruments\":\"Guitar, Bass, Drums, Vocals\"\x7d,\"spotify_url\":\"https://open.spotify.com/track/0ofHAoxe9vBkTCp2UQIavz\"\x7d,\x7b\"title\":\"Redbone\",\"artist\":\"Childish Gambino\",\"reasoning\":\"With its unique blend of funk, soul, and R&B elements, this song embodies linguistic fusion across musical traditions. The falsetto vocals create linguistic contrast with the vintage instrumentation, while the psychedelic production adds a third layer of communication to create a rich, multi-dimensional sonic experience.\",\"attributes\":\x7b\"tempo\":\"Slow\",\"key\":\"D Minor\",\"mood\":\"Soulful, Atmospheric\",\"production style\":\"Vintage, Warm\",\"instruments\":\"Guitar, Bass, Drums, Synths, Vocals\"\x7d,\"spotify_url\":\"https://open.spotify.com/track/3kxfsdsCpFgN412fpnW85Y\"\x7d]"

/-- The hardcoded fallback recommendation list returned at src/gemini_service.py line 643. -/
def bollywoodFallbackRecs : List Json :=
  [Json.obj [("title", Json.str "Chaiyya Chaiyya"), ("artist", Json.str "Sukhwinder Singh, Sapna Awasthi"), ("reasoning", Json.str "This iconic Bollywood song creates a powerful linguistic bridge through its fusion of classical Indian vocal techniques with contemporary film music sensibilities. The rhythmic interplay between vocals and percussion forms a distinctive cultural dialect that perfectly aligns with your playlist's emphasis on traditional Indian musical syntax."), ("attributes", Json.obj [("tempo", Json.str "Medium-Fast"), ("key", Json.str "A Minor"), ("mood", Json.str "Energetic, Celebratory"), ("production style", Json.str "Rich, Percussive"), ("instruments", Json.str "Tabla, Flute, Sitar, Vocals, Percussion")]), ("spotify_url", Json.str "https://open.spotify.com/track/2uyJJCIXGJZgRvpNeFcpcL")],
   Json.obj [("title", Json.str "Tum Hi Ho"), ("artist", Json.str "Arijit Singh"), ("reasoning", Json.str "This modern Bollywood ballad communicates through a distinctly Indian musical linguistics that balances Western harmonic frameworks with South Asian melodic ornamentation. The expressive vocal delivery employs microtonal inflections that create a conversational intimacy mirroring the emotive patterns prevalent in your playlist."), ("attributes", Json.obj [("tempo", Json.str "Slow"), ("key", Json.str "E Minor"), ("mood", Json.str "Romantic, Melancholic"), ("production style", Json.str "Intimate, Polished"), ("instruments", Json.str "Piano, Strings, Guitar, Vocals")]), ("spotify_url", Json.str "https://open.spotify.com/track/69xcFpmqTOmFNOL08Bdwqh")],
   Json.obj [("title", Json.str "Jai Ho"), ("artist", Json.str "A.R. Rahman, Sukhwinder Singh"), ("reasoning", Json.str "The rhythmic sophistication of this track creates a cross-cultural linguistic fusion that bridges Eastern and Western musical syntax. The call-and-response vocal architecture forms a communal conversation pattern that resonates with the collective musical language expressed throughout your playlist."), ("attributes", Json.obj [("tempo", Json.str "Fast"), ("key", Json.str "D Minor"), ("mood", Json.str "Triumphant, Uplifting"), ("production style", Json.str "Dynamic, Multi-layered"), ("instruments", Json.str "Tabla, Percussion, Strings, Vocals")]), ("spotify_url", Json.str "https://open.spotify.com/track/2MLHyLy8zMuwLMdnr1mZXz")],
   Json.obj [("title", Json.str "Kal Ho Naa Ho"), ("artist", Json.str "Sonu Nigam"), ("reasoning", Json.str "This beloved Bollywood classic exemplifies the sophisticated musical linguistics of Indian film music through its seamless blend of traditional melodic ornamentation and contemporary orchestration. The emotional vocal delivery creates an intimate conversation with the listener that transcends language barriers through pure musical expression."), ("attributes", Json.obj [("tempo", Json.str "Medium"), ("key", Json.str "G Major"), ("mood", Json.str "Emotional, Bittersweet"), ("production style", Json.str "Orchestral, Cinematic"), ("instruments", Json.str "Strings, Piano, Flute, Vocals")]), ("spotify_url", Json.str "https://open.spotify.com/track/4IHdBMvUyIlRpXWBXwZnGz")]]

/-- The hardcoded fallback recommendation list returned at src/gemini_service.py line 700. -/
def electronicFallbackRecs : List Json :=
  [Json.obj [("title", Json.str "Strobe"), ("artist", Json.str "deadmau5"), ("reasoning", Json.str "This progressive house masterpiece linguistically aligns with your playlist through its masterful layering and atmospheric development. The gradual evolution of motifs and textures creates a narrative arc that mirrors linguistic storytelling techniques, while the precise arrangement of frequencies creates a sonic language that speaks directly to electronic music enthusiasts."), ("attributes", Json.obj [("tempo", Json.str "Medium"), ("key", Json.str "C Minor"), ("mood", Json.str "Atmospheric, Euphoric"), ("production style", Json.str "Layered, Progressive"), ("instruments", Json.str "Synthesizer, Drum Machine, Bass")]), ("spotify_url", Json.str "https://open.spotify.com/track/4YnAQK7wLUYD2r7MrTAQh9")],
   Json.obj [("title", Json.str "Innerbloom"), ("artist", Json.str "RÜFÜS DU SOL"), ("reasoning", Json.str "This deep electronic track shares linguistic qualities with your playlist through its immersive sonic journey. The deliberate use of space and silence acts as punctuation in a musical sentence, while the evolving synthwork creates a vocabulary of sounds that communicate emotional depth without relying on traditional song structures - a signature of sophisticated electronic linguistics."), ("attributes", Json.obj [("tempo", Json.str "Slow-Medium"), ("key", Json.str "G Minor"), ("mood", Json.str "Hypnotic, Introspective"), ("production style", Json.str "Atmospheric, Spatial"), ("instruments", Json.str "Synthesizer, Electronic Drums, Vocals")]), ("spotify_url", Json.str "https://open.spotify.com/track/11LmqTE2naFULdEP94AUBa")],
   Json.obj [("title", Json.str "Opus"), ("artist", Json.str "Eric Prydz"), ("reasoning", Json.str "This epic progressive house track linguistically connects with your playlist through its expert use of tension and release - the musical equivalent of rhetorical devices. The track's structure follows a clear linguistic pattern of introduction, development, climax and resolution, creating a complete musical statement that satisfies both emotionally and intellectually."), ("attributes", Json.obj [("tempo", Json.str "Medium"), ("key", Json.str "D Minor"), ("mood", Json.str "Epic, Euphoric"), ("production style", Json.str "Cinematic, Dynamic"), ("instruments", Json.str "Synthesizer, Drum Machine, Bass")]), ("spotify_url", Json.str "https://open.spotify.com/track/38CdZgTX1jQSKKHsf8q0uN")],
   Json.obj [("title", Json.str "Immunity"), ("artist", Json.str "Jon Hopkins"), ("reasoning", Json.str "This electronic composition creates a sophisticated linguistic experience through its blend of organic and digital textures. The track's evolving sonic landscape functions as a form of non-verbal communication that articulates emotional states through pure sound design - reflecting the depth and nuance of electronic expression in your playlist."), ("attributes", Json.obj [("tempo", Json.str "Medium-Slow"), ("key", Json.str "B Minor"), ("mood", Json.str "Introspective, Meditative"), ("production style", Json.str "Textural, Detailed"), ("instruments", Json.str "Synthesizers, Piano, Field Recordings, Electronic Percussion")]), ("spotify_url", Json.str "https://open.spotify.com/track/5Hs4XwYULTsDsnFSH2fJDS")]]

/-- The hardcoded fallback recommendation list returned at src/gemini_service.py line 756. -/
def defaultFallbackRecs : List Json :=
  [Json.obj [("title", Json.str "Bohemian Rhapsody"), ("artist", Json.str "Queen"), ("reasoning", Json.str "This iconic rock song linguistically bridges multiple musical languages in a single composition, similar to the varied linguistic palette of your playlist. The track's operatic middle section, hard rock portions, and ballad elements create a masterclass in musical code-switching that demonstrates how disparate language elements can create a cohesive whole."), ("attributes", Json.obj [("tempo", Json.str "Varied"), ("key", Json.str "Bb Major"), ("mood", Json.str "Dramatic"), ("production style", Json.str "Theatrical, Layered"), ("instruments", Json.str "Piano, Guitar, Bass, Drums, Vocals")]), ("spotify_url", Json.str "https://open.spotify.com/track/7tFiyTwD0nx5a1eklYtX2J")],
   Json.obj [("title", Json.str "Dreams"), ("artist", Json.str "Fleetwood Mac"), ("reasoning", Json.str "This timeless classic creates a linguistic harmony through its perfect balance of rock and pop elements. The song's musical linguistics revolve around the conversation between the hypnotic rhythm section and the ethereal vocal delivery - creating a syntax of sound that feels both structured and dreamlike, mirroring the eclectic yet cohesive nature of your playlist."), ("attributes", Json.obj [("tempo", Json.str "Medium"), ("key", Json.str "F Major"), ("mood", Json.str "Dreamy, Melodic"), ("production style", Json.str "Warm, Balanced"), ("instruments", Json.str "Guitar, Bass, Drums, Vocals")]), ("spotify_url", Json.str "https://open.spotify.com/track/0ofHAoxe9vBkTCp2UQIavz")],
   Json.obj [("title", Json.str "Redbone"), ("artist", Json.str "Childish Gambino"), ("reasoning", Json.str "With its unique blend of funk, soul, and R&B elements, this song demonstrates linguistic fusion across musical traditions. The falsetto vocals create one tonal language while the vintage instrumentation speaks another dialect entirely - yet they communicate perfectly with each other, creating a rich conversational texture that would resonate with the diverse musical linguistics in your collection."), ("attributes", Json.obj [("tempo", Json.str "Slow"), ("key", Json.str "D Minor"), ("mood", Json.str "Soulful, Atmospheric"), ("production style", Json.str "Vintage, Warm"), ("instruments", Json.str "Guitar, Bass, Drums, Synths, Vocals")]), ("spotify_url", Json.str "https://open.spotify.com/track/3kxfsdsCpFgN412fpnW85Y")],
   Json.obj [("title", Json.str "Superstition"), ("artist", Json.str "Stevie Wonder"), ("reasoning", Json.str "This funk classic speaks a sophisticated rhythmic language through its syncopated clavinet patterns and precise instrumental conversations. The linguistic structure creates a call-and-response dialogue between instruments that invites the listener into an immersive sonic discussion, offering a masterclass in musical linguistics through groove and texture."), ("attributes", Json.obj [("tempo", Json.str "Medium-Fast"), ("key", Json.str "Eb Minor"), ("mood", Json.str "Energetic, Groovy"), ("production style", Json.str "Organic, Precise"), ("instruments", Json.str "Clavinet, Bass, Drums, Horns, Vocals")]), ("spotify_url", Json.str "https://open.spotify.com/track/1YuOzZWlDrVf1vX7mMHzWP")]]

/-! ### The recommendation pipeline around the normalizer
(`get_song_recommendations`, src/gemini_service.py lines 480-809) -/

/-- Whether Python's `needle in v` evaluates without raising on a parsed
JSON value `v`: membership is defined for strings, lists and dicts, and a
`TypeError` for the other (non-iterable) payloads. -/
def pyInOk : Json → Bool
  | Json.str _ => true
  | Json.arr _ => true
  | Json.obj _ => true
  | _ => false

/-- Whether a JSON value is a mapping. -/
def isObjJ : Json → Bool
  | Json.obj _ => true
  | _ => false

/-- Whether the pre-loop prompt construction (decade extraction and the
simplified-analysis projection, lines 492-524) runs without raising on the
given analysis mapping: the `decade in decade_info` tests need an iterable
`decade_profile`, and `list(….keys())` needs `instruments` and
`key_distribution` to be dicts.  An exception here skips the model calls
and lands in the outermost handler. -/
def recPrepOk (kvs : List (String × Json)) : Bool :=
  pyInOk (dictGetD kvs "decade_profile" (Json.str "")) &&
  isObjJ (dictGetD kvs "instruments" (Json.obj [])) &&
  isObjJ (dictGetD kvs "key_distribution" (Json.obj []))

/-- Whether any instrument key of `ikvs`, lowercased, is one of `words`
(the `any(key.lower() in [...] for key in ….keys())` tests of the fallback
selector). -/
def keysHaveAny (ikvs : List (String × Json)) (words : List String) : Bool :=
  ikvs.any (fun kv => words.contains (asciiLower kv.1))

/-- The outermost exception handler of `get_song_recommendations`
(lines 638-809): pick one of three hardcoded recommendation lists by
keyword tests on the analysis.  `general_description` is `.lower()`ed, so
a non-string value raises out of the handler (embedded as `.error ()`),
and — when no description keyword matched first — so does `.keys()` on a
non-dict `instruments`. -/
def recFallback (kvs : List (String × Json)) : Except Unit (List Json) :=
  match dictGetD kvs "general_description" (Json.str "") with
  | Json.str d0 =>
    let d := asciiLower d0
    if containsSubS d "indian" || containsSubS d "bollywood" || containsSubS d "hindi" then
      Except.ok bollywoodFallbackRecs
    else
      match dictGetD kvs "instruments" (Json.obj []) with
      | Json.obj ikvs =>
        if keysHaveAny ikvs ["sitar", "tabla", "indian"] then
          Except.ok bollywoodFallbackRecs
        else if containsSubS d "electronic" || containsSubS d "dance" then
          Except.ok electronicFallbackRecs
        else if keysHaveAny ikvs ["synthesizer", "synth", "drum machine", "electronic"] then
          Except.ok electronicFallbackRecs
        else
          Except.ok defaultFallbackRecs
      | _ => Except.error ()
  | _ => Except.error ()

/-- `get_song_recommendations` on an analysis mapping, with the model
replies supplied by the oracle `gen`: run the prompt construction, then up
to `maxRetries` generate-then-normalize attempts; the first surviving list
is returned, and any failure(prep exception, or all attempts failing)
falls into the hardcoded fallback selector. -/
def getSongRecommendations (kvs : List (String × Json)) (gen : Nat → String) :
    Except Unit (List Json) :=
  if recPrepOk kvs then
    match tryFrom (fun i => recAttempt (gen i)) 0 maxRetries with
    | some l => Except.ok l
    | none => recFallback kvs
  else recFallback kvs

/-! ### The fallback model (`setup_gemini`'s `FallbackModel`,
src/gemini_service.py lines 135-301)

When every candidate model fails the probe call, `setup_gemini` returns a
`FallbackModel` whose `generate_content(prompt).text` is embedded here as
`mockResponseText`.  The global random generator behind `random.sample`
is the oracle `sample` (for an analysis prompt with at least three parsed
track lines it stands for `random.sample(track_list, 3)`, whose outcome is
any 3-element selection of `track_list` in selection order, depending on
the hidden generator state); Python's `hash` is the oracle `hashF`
(`hash(track) % 12` is always non-negative, so a `Nat`-valued oracle
loses nothing).  `.error ()` marks a prompt on which reading `.text`
raises (an `IndexError` from `prompt.split("SONGS:")[1]`). -/

/-- The key-name table of the mock analysis branch (line 180). -/
def mockKeyNames : List String :=
  ["C Major", "G Major", "D Major", "A Major", "E Major", "B Major",
   "F Major", "A Minor", "E Minor", "B Minor", "F# Minor", "D Minor"]

/-- `key_dist[key] = key_dist.get(key, 0) + 1` on an insertion-ordered
count table. -/
def bumpCount (k : String) : List (String × Nat) → List (String × Nat)
  | [] => [(k, 1)]
  | (k', n) :: rest => if k' = k then (k', n + 1) :: rest else (k', n) :: bumpCount k rest

/-- Insert into a count-descending list, before the first entry of equal
or smaller count (preserving, as Python's stable `sorted(…, reverse=True)`
does, the original order of equal counts). -/
def insCountDesc (x : String × Nat) : List (String × Nat) → List (String × Nat)
  | [] => [x]
  | y :: ys => if y.2 ≤ x.2 then x :: y :: ys else y :: insCountDesc x ys

/-- `sorted(items, key=lambda x: x[1], reverse=True)`. -/
def sortCountDesc : List (String × Nat) → List (String × Nat)
  | [] => []
  | x :: xs => insCountDesc x (sortCountDesc xs)

/-- The dynamic analysis branch of the mock model (lines 141-210): parse
the track lines out of the prompt, then serialize a playlist-analysis JSON
built from the track count, the sampled example tracks and the hashed key
distribution; a prompt without a `"SONGS:"` marker raises (`.error`), and
one whose section yields no track lines returns the canned analysis of
line 210. -/
def mockAnalysisText (prompt : String) (sample : List String → List String)
    (hashF : String → Nat) : Except Unit String :=
  match (pySplit prompt "SONGS:").get? 1 with
  | none => Except.error ()
  | some seg =>
    let songLines := pySplit (pyStrip (listGetD (pySplit seg "Format") 0 "")) "\n"
    let trackList := (songLines.filter
      (fun l => ¬ (pyStrip l).isEmpty ∧ containsSubS l ". ")).map pyStrip
    if trackList.isEmpty then Except.ok mockNoTracksAnalysisText
    else
      let n := trackList.length
      let base := "This playlist of " ++ toString n ++
        " tracks appears to contain a mix of musical styles"
      let customDesc :=
        if 3 ≤ n then
          let sampleTracks := sample trackList
          let trackExamples := joinSepS ", " (sampleTracks.map
            (fun t => if containsSubS t ". " then listGetD (pySplit t ". ") 1 "" else t))
          base ++ " with tracks like " ++ trackExamples ++ "."
        else base ++ "."
      let mood := if n < 10 then "intimate and focused"
                  else if n < 20 then "varied yet cohesive"
                  else "diverse and eclectic"
      let genre := if n < 10 then "cohesive collection focusing on a specific musical style"
                   else if n < 20 then "curated collection with complementary styles"
                   else "wide-ranging exploration of various musical styles"
      let minBpm := 70 + n % 30
      let maxBpm := 120 + n % 40
      let commonBpm := minBpm + (maxBpm - minBpm) / 2
      let keyDist := trackList.foldl
        (fun acc t => bumpCount (listGetD mockKeyNames (hashF t % mockKeyNames.length) "") acc) []
      let keyDist := (sortCountDesc keyDist).take 5
      Except.ok (jsonDumpF 4 (Json.obj
        [("general_description", Json.str customDesc),
         ("bpm_range", Json.obj
           [("min", Json.num (minBpm : Int)), ("max", Json.num (maxBpm : Int)),
            ("most_common", Json.num (commonBpm : Int))]),
         ("instruments", Json.obj
           [("Guitar", Json.str (if n % 3 = 0 then "high" else "medium")),
            ("Piano", Json.str (if n % 2 = 0 then "medium" else "low")),
            ("Drums", Json.str "high"),
            ("Bass", Json.str "high"),
            ("Synthesizer", Json.str (if n % 2 = 1 then "medium" else "high")),
            ("Vocals", Json.str "high")]),
         ("key_distribution", Json.obj (keyDist.map (fun kn => (kn.1, Json.num (kn.2 : Int))))),
         ("mood_description", Json.str ("The playlist has a " ++ mood ++ " mood with a mix of energies.")),
         ("genre_analysis", Json.str ("This playlist represents a " ++ genre ++ "."))]))

/-- Keyword table of line 227 (Bollywood). -/
def mockBollywoodWords : List String :=
  ["bollywood", "indian", "hindi", "desi", "bhangra", "classical indian"]

/-- Keyword table of line 232 (K-Pop). -/
def mockKpopWords : List String :=
  ["k-pop", "kpop", "korean", "k pop", "bts", "blackpink", "twice"]

/-- Keyword table of line 237 (Latin). -/
def mockLatinWords : List String :=
  ["latin", "reggaeton", "salsa", "bachata", "cumbia", "merengue", "spanish", "latino"]

/-- Keyword table of line 242 (hip-hop). -/
def mockHipHopWords : List String :=
  ["hip hop", "rap", "hip-hop", "trap", "r&b", "rnb", "urban"]

/-- Keyword table of line 247 (rock). -/
def mockRockWords : List String :=
  ["rock", "guitar", "band", "alternative", "indie"]

/-- Keyword table of line 252 (pop). -/
def mockPopWords : List String :=
  ["pop", "catchy", "upbeat", "mainstream"]

/-- Keyword table of line 257 (electronic). -/
def mockElectronicWords : List String :=
  ["electronic", "dance", "edm", "techno", "synth"]

/-- Keyword table of line 262 (classical). -/
def mockClassicalWords : List String :=
  ["classical", "orchestra", "instrumental", "symphony", "composer", "piano"]

/-- Keyword table of line 267 (jazz). -/
def mockJazzWords : List String :=
  ["jazz", "blues", "swing", "bebop", "improvisation", "saxophone"]

/-- Artist-name table of line 279. -/
def mockBollywoodArtists : List String :=
  ["khan", "singh", "kumar", "kapoor", "rahman", "arijit", "shreya", "kishore",
   "lata", "rafi", "himesh"]

/-- Read a string out of a JSON value; any other payload raises
(`.lower()` on a non-string). -/
def strOfJson : Json → Except Unit String
  | Json.str s => Except.ok s
  | _ => Except.error ()

/-- `track["artist"].lower()` for one element of the profile's `tracks`
list: raises unless the element is a mapping with a string `artist`. -/
def trackArtistLower : Json → Except Unit String
  | Json.obj tkvs =>
    match dictGet tkvs "artist" with
    | some (Json.str a) => Except.ok (asciiLower a)
    | _ => Except.error ()
  | _ => Except.error ()

/-- `[track["artist"].lower() for track in profile_data.get("tracks", [])]`:
iterating a non-empty dict yields string keys and a string yields
characters, both of which raise at the `["artist"]` indexing; empty
iterables yield an empty list; non-iterables raise at once. -/
def artistsLowerOf : Json → Except Unit (List String)
  | Json.arr xs => xs.mapM trackArtistLower
  | Json.obj okvs => if okvs.isEmpty then Except.ok [] else Except.error ()
  | Json.str s => if s.isEmpty then Except.ok [] else Except.error ()
  | _ => Except.error ()

/-- The artist-detection branch (lines 272-288): its own `try` block falls
back to the default canned list on any error. -/
def mockArtistBranch (pkvs : List (String × Json)) : String :=
  match artistsLowerOf (dictGetD pkvs "tracks" (Json.arr [])) with
  | Except.error _ => mockDefaultRecsTextB
  | Except.ok artists =>
    let artistText := joinSepS " " artists
    if mockBollywoodArtists.any (fun nm => containsSubS artistText nm) then
      mockArtistBollywoodText
    else mockDefaultRecsTextA

/-- The profile-driven recommendation branch of the mock model
(lines 213-288), up to its outer exception handler: extract and parse the
`PROFILE:` JSON, lower its `description`/`genres`/`mood` (a non-string
raises, reaching the handler), then walk the keyword tables in order.
The source lowers these fields once at binding time and (idempotently)
again in each membership test; the embedding lowers once. -/
def mockRecommendCore (prompt : String) : Except Unit String := do
  let seg ← match (pySplit prompt "PROFILE:").get? 1 with
    | some s => Except.ok s
    | none => Except.error ()
  let profileSection := pyStrip (listGetD (pySplit seg "For each recommendation") 0 "")
  let j ← match jsonParse profileSection with
    | some j => Except.ok j
    | none => Except.error ()
  let pkvs ← match j with
    | Json.obj kvs => Except.ok kvs
    | _ => Except.error ()
  let d ← strOfJson (dictGetD pkvs "description" (Json.str ""))
  let g ← strOfJson (dictGetD pkvs "genres" (Json.str ""))
  let m ← strOfJson (dictGetD pkvs "mood" (Json.str ""))
  let d := asciiLower d
  let g := asciiLower g
  let m := asciiLower m
  let hit := fun (ws : List String) =>
    ws.any (fun w => containsSubS d w || containsSubS g w || containsSubS m w)
  if hit mockBollywoodWords then Except.ok mockBollywoodRecsText
  else if hit mockKpopWords then Except.ok mockKpopRecsText
  else if hit mockLatinWords then Except.ok mockLatinRecsText
  else if hit mockHipHopWords then Except.ok mockHipHopRecsText
  else if hit mockRockWords then Except.ok mockRockRecsText
  else if hit mockPopWords then Except.ok mockPopRecsText
  else if hit mockElectronicWords then Except.ok mockElectronicRecsText
  else if hit mockClassicalWords then Except.ok mockClassicalRecsText
  else if hit mockJazzWords then Except.ok mockJazzRecsText
  else Except.ok (mockArtistBranch pkvs)

/-- The recommendation branch with its outer handler (line 290): any error
becomes the canned list of line 293. -/
def mockRecommendText (prompt : String) : String :=
  match mockRecommendCore prompt with
  | Except.ok s => s
  | Except.error _ => mockProfileErrorRecsText

/-- `FallbackModel.generate_content(prompt).text`: the prompt-family
dispatch of lines 142, 213 and 297. -/
def mockResponseText (prompt : String) (sample : List String → List String)
    (hashF : String → Nat) : Except Unit String :=
  if containsSubS prompt "analyze these songs" then mockAnalysisText prompt sample hashF
  else if containsSubS prompt "recommend" then Except.ok (mockRecommendText prompt)
  else Except.ok "\x7b\"status\":\"fallback\"\x7d"

/-! ### The pagination loop (`get_playlist_tracks`,
src/spotify_service.py lines 44-109)

The catalog API is an oracle: the list `resps` holds, in order, the result
of each successive `playlist_items` call the loop makes.  Sleeps are
recorded as events (`pageDelay` for the fixed `time.sleep(0.5)` between
pages, `rateWait n` for the `time.sleep(retry_after)` of a rate-limit
retry). -/

/-- A track object of one response item (`item["track"]`), with every
field optional as in the raw JSON. -/
structure RawTrack where
  id : Option String
  name : Option String
  artists : List (Option String)
  album : Option String
  durationMs : Option Int
  popularity : Option Int

/-- One flattened track row as `get_playlist_tracks` accumulates them. -/
structure TrackRec where
  id : String
  name : String
  artist : String
  album : String
  durationMs : Int
  popularity : Int
deriving Repr, DecidableEq

/-- One page of the paginated endpoint: its `items` array (absent models a
response without an `'items'` key) and whether a `next` cursor is
present. -/
structure PageResponse where
  items : Option (List (Option RawTrack))
  next : Bool

/-- The result of one `playlist_items` call: a response (or a falsy one),
a rate-limit rejection carrying the optional `Retry-After` header value
(already through `int(…)`), or any other API error. -/
inductive PageResult where
  | ok (resp : Option PageResponse)
  | rateLimited (retryAfter : Option Nat)
  | apiError (status : Nat) (msg : String)

/-- An observable sleep of the pagination loop. -/
inductive FetchEvent where
  | pageDelay : FetchEvent
  | rateWait (secs : Nat) : FetchEvent
deriving Repr, DecidableEq

/-- How a pagination run ends: normally, with a surfaced error, or — an
artifact of the finite oracle — with the response list exhausted while the
loop would continue. -/
inductive FetchOutcome where
  | done (tracks : List TrackRec) (events : List FetchEvent)
  | failed (msg : String) (events : List FetchEvent)
  | starved (offset : Nat) (tracks : List TrackRec) (events : List FetchEvent)

/-- `limit = 100`, the page size. -/
def pageLimit : Nat := 100

/-- The message of the non-retryable branch
(`f"Spotify API Error: {e.http_status} - {e.msg}"`). -/
def spotifyErrorMsg (status : Nat) (msg : String) : String :=
  "Spotify API Error: " ++ toString status ++ " - " ++ msg

/-- The per-item body of the pagination loop (lines 69-90): skip items
without a track object or without a truthy id, join artist names, default
the scalar fields. -/
def processItems (items : List (Option RawTrack)) : List TrackRec :=
  items.filterMap (fun it =>
    match it with
    | none => none
    | some t =>
      match t.id with
      | none => none
      | some i =>
        if i.isEmpty then none
        else some
          { id := i,
            name := t.name.getD "N/A",
            artist := joinSepS ", " (t.artists.map (fun a => a.getD "N/A")),
            album := t.album.getD "N/A",
            durationMs := t.durationMs.getD 0,
            popularity := t.popularity.getD 0 })

/-- The `while True` loop of `get_playlist_tracks`, one oracle response per
iteration: a falsy or `items`-less response breaks; an empty page breaks;
a full page appends its tracks and either follows the `next` cursor
(advancing `offset` by the page limit after a fixed delay) or breaks; a
429 sleeps for the `Retry-After` value — 5 when the header is absent —
and re-requests without touching `offset`; any other API error aborts the
fetch with the surfaced message. -/
def fetchGo : List PageResult → Nat → List TrackRec → List FetchEvent → FetchOutcome
  | [], off, acc, evs => FetchOutcome.starved off acc evs
  | r :: rest, off, acc, evs =>
    match r with
    | PageResult.ok none => FetchOutcome.done acc evs
    | PageResult.ok (some page) =>
      match page.items with
      | none => FetchOutcome.done acc evs
      | some items =>
        if items.isEmpty then FetchOutcome.done acc evs
        else
          let acc := acc ++ processItems items
          if page.next then fetchGo rest (off + pageLimit) acc (evs ++ [FetchEvent.pageDelay])
          else FetchOutcome.done acc evs
    | PageResult.rateLimited h =>
      fetchGo rest off acc (evs ++ [FetchEvent.rateWait (h.getD 5)])
    | PageResult.apiError status msg => FetchOutcome.failed (spotifyErrorMsg status msg) evs

/-- A whole fetch starting at offset 0 with nothing accumulated. -/
def getPlaylistTracks (resps : List PageResult) : FetchOutcome :=
  fetchGo resps 0 [] []

/-! ### Predicates and concrete texts used by the verification statements -/

/-- Whether the bpm record of an analysis satisfies
`min ≤ most_common ≤ max` (vacuously true when the three numeric keys are
not all present — the claim under study concerns replies that carry
them). -/
def bpmOrderedB : Json → Bool
  | Json.obj kvs =>
    match dictGet kvs "bpm_range" with
    | some (Json.obj b) =>
      match dictGet b "min", dictGet b "most_common", dictGet b "max" with
      | some (Json.num mn), some (Json.num mc), some (Json.num mx) =>
        decide (mn ≤ mc ∧ mc ≤ mx)
      | _, _, _ => true
    | _ => true
  | _ => true

/-- Whether an analysis record carries every mandatory key of the §3
schema with a value of its declared type: strings for the three text
fields, a mapping for `instruments` and `key_distribution`, and a mapping
with numeric `min`/`max`/`most_common` for `bpm_range`. -/
def analysisWellTypedB : Json → Bool
  | Json.obj kvs =>
    (match dictGet kvs "general_description" with | some (Json.str _) => true | _ => false) &&
    (match dictGet kvs "bpm_range" with
     | some (Json.obj b) =>
       (match dictGet b "min" with | some (Json.num _) => true | _ => false) &&
       (match dictGet b "max" with | some (Json.num _) => true | _ => false) &&
       (match dictGet b "most_common" with | some (Json.num _) => true | _ => false)
     | _ => false) &&
    (match dictGet kvs "instruments" with | some (Json.obj _) => true | _ => false) &&
    (match dictGet kvs "key_distribution" with | some (Json.obj _) => true | _ => false) &&
    (match dictGet kvs "mood_description" with | some (Json.str _) => true | _ => false) &&
    (match dictGet kvs "genre_analysis" with | some (Json.str _) => true | _ => false)
  | _ => false

/-- An explicit error marker detectable by a single string key (the shape
of `{"status": "fallback"}`). -/
def analysisErrorMarkerB : Json → Bool
  | Json.obj [(_, Json.str _)] => true
  | _ => false

/-- Whether one recommendation element is a mapping carrying a non-null
value for each of the five required keys. -/
def recElemNonNullB : Json → Bool
  | Json.obj kvs =>
    recFields.all (fun f =>
      match dictGet kvs f with
      | some Json.null => false
      | some _ => true
      | none => false)
  | _ => false

/-- Whether a JSON value is a string. -/
def isStrJ : Json → Bool
  | Json.str _ => true
  | _ => false

/-- Every mandatory key of the analysis schema is present (and the bpm
sub-keys whenever `bpm_range` is a mapping); the values themselves are
unconstrained. -/
def analysisFullyKeyed (out : Json) : Prop :=
  ∃ kvs, out = Json.obj kvs ∧
    (∀ f ∈ requiredFields, dictContains kvs f = true) ∧
    ∀ b, dictGet kvs "bpm_range" = some (Json.obj b) →
      dictContains b "min" = true ∧ dictContains b "max" = true ∧
      dictContains b "most_common" = true

/-- The characters of the tagged fence opener `"```json"`. -/
def fenceJsonL : List Char := ['\x60', '\x60', '\x60', 'j', 's', 'o', 'n']

/-- The characters of the bare fence delimiter `"```"`. -/
def fenceTicksL : List Char := ['\x60', '\x60', '\x60']

/-- An analysis prompt for the fallback model carrying three track lines
(the shape `analyze_playlist` always produces: an `"analyze these songs"`
instruction, a `SONGS:` section, a `Format` sentinel). -/
def mockTripleTrackPrompt : String :=
  "analyze these songs\nSONGS:\n1. Alpha by A\n2. Bravo by B\n3. Charlie by C\nFormat"

/-- The fallback model's reply on `mockTripleTrackPrompt` when the random
sampler returns the three track lines in original order. -/
def mockTripleTrackReplyFwd : String :=
  "\x7b\"general_description\": \"This playlist of 3 tracks appears to contain a mix of musical styles with tracks like Alpha by A, Bravo by B, Charlie by C.\", \"bpm_range\": \x7b\"min\": 73, \"max\": 123, \"most_common\": 98\x7d, \"instruments\": \x7b\"Guitar\": \"high\", \"Piano\": \"low\", \"Drums\": \"high\", \"Bass\": \"high\", \"Synthesizer\": \"medium\", \"Vocals\": \"high\"\x7d, \"key_distribution\": \x7b\"C Major\": 3\x7d, \"mood_description\": \"The playlist has a intimate and focused mood with a mix of energies.\", \"genre_analysis\": \"This playlist represents a cohesive collection focusing on a specific musical style.\"\x7d"

/-- The fallback model's reply on `mockTripleTrackPrompt` when the random
sampler returns the three track lines in reversed order (an equally
possible outcome of `random.sample`). -/
def mockTripleTrackReplyRev : String :=
  "\x7b\"general_description\": \"This playlist of 3 tracks appears to contain a mix of musical styles with tracks like Charlie by C, Bravo by B, Alpha by A.\", \"bpm_range\": \x7b\"min\": 73, \"max\": 123, \"most_common\": 98\x7d, \"instruments\": \x7b\"Guitar\": \"high\", \"Piano\": \"low\", \"Drums\": \"high\", \"Bass\": \"high\", \"Synthesizer\": \"medium\", \"Vocals\": \"high\"\x7d, \"key_distribution\": \x7b\"C Major\": 3\x7d, \"mood_description\": \"The playlist has a intimate and focused mood with a mix of energies.\", \"genre_analysis\": \"This playlist represents a cohesive collection focusing on a specific musical style.\"\x7d"

/-- The fixed error-shaped reply of the fallback model's last branch
(src/gemini_service.py line 297). -/
def mockStatusFallbackText : String := "\x7b\"status\":\"fallback\"\x7d"

/-! ## Helper lemmas -/

set_option maxRecDepth 10000

/-- A successful `tryFrom` run pins an attempt index on which `f`
succeeded with the returned value. -/
theorem tryFrom_eq_some {α : Type} (f : Nat → Option α) :
    ∀ n i a, tryFrom f i n = some a → ∃ j, i ≤ j ∧ j < i + n ∧ f j = some a := by
  intro n
  induction n with
  | zero => intro i a h; simp [tryFrom] at h
  | succ n ih =>
    intro i a h
    unfold tryFrom at h
    cases hf : f i with
    | some b =>
      rw [hf] at h
      refine ⟨i, Nat.le_refl i, by omega, ?_⟩
      rw [hf]
      exact h
    | none =>
      rw [hf] at h
      obtain ⟨j, h1, h2, h3⟩ := ih (i + 1) a h
      exact ⟨j, by omega, by omega, h3⟩

/-- When every attempt in the window fails, `tryFrom` fails. -/
theorem tryFrom_eq_none {α : Type} (f : Nat → Option α) :
    ∀ n i, (∀ j, i ≤ j → j < i + n → f j = none) → tryFrom f i n = none := by
  intro n
  induction n with
  | zero => intro i _; rfl
  | succ n ih =>
    intro i h
    unfold tryFrom
    rw [h i (Nat.le_refl i) (by omega)]
    exact ih (i + 1) (fun j hj1 hj2 => h j (by omega) (by omega))

/-- `setMissing` leaves its key present. -/
theorem dictContains_setMissing_self (kvs : List (String × Json)) (k : String) (v : Json) :
    dictContains (setMissing kvs k v) k = true := by
  unfold setMissing
  by_cases h : dictContains kvs k = true
  · simp [h]
  · simp only [h, if_false, Bool.if_false_right, Bool.and_true]
    simp [dictContains, List.any_append]

/-- `setMissing` preserves every present key. -/
theorem dictContains_setMissing_of (kvs : List (String × Json)) (k : String) (v : Json)
    (f : String) (h : dictContains kvs f = true) :
    dictContains (setMissing kvs k v) f = true := by
  unfold setMissing
  by_cases hc : dictContains kvs k = true
  · simp [hc, h]
  · simp only [hc, if_false]
    simp only [dictContains, List.any_append] at h ⊢
    simp [h]

/-- `fillFields` preserves every present key. -/
theorem dictContains_fillFields_of (defaults : List (String × Json))
    (kvs : List (String × Json)) (f : String) (h : dictContains kvs f = true) :
    dictContains (fillFields defaults kvs) f = true := by
  induction defaults generalizing kvs with
  | nil => exact h
  | cons d ds ih =>
    show dictContains (fillFields ds (setMissing kvs d.1 d.2)) f = true
    exact ih _ (dictContains_setMissing_of kvs d.1 d.2 f h)

/-- Every key of the defaults table is present after `fillFields`. -/
theorem dictContains_fillFields_mem (defaults : List (String × Json))
    (kvs : List (String × Json)) (f : String) (h : f ∈ defaults.map Prod.fst) :
    dictContains (fillFields defaults kvs) f = true := by
  induction defaults generalizing kvs with
  | nil => simp at h
  | cons d ds ih =>
    rw [List.map_cons, List.mem_cons] at h
    cases h with
    | inl h =>
      subst h
      show dictContains (fillFields ds (setMissing kvs d.1 d.2)) d.1 = true
      exact dictContains_fillFields_of ds _ d.1 (dictContains_setMissing_self kvs d.1 d.2)
    | inr h =>
      show dictContains (fillFields ds (setMissing kvs d.1 d.2)) f = true
      exact ih (setMissing kvs d.1 d.2) h

/-- Overwriting a key stores the new value at it. -/
theorem dictGet_dictInsertL_self (kvs : List (String × Json)) (k : String) (v : Json) :
    dictGet (dictInsertL k v kvs) k = some v := by
  induction kvs with
  | nil => simp [dictInsertL, dictGet]
  | cons kv rest ih =>
    by_cases h : kv.1 = k
    · cases kv
      simp_all [dictInsertL, dictGet, List.find?]
    · cases kv
      simp_all [dictInsertL, dictGet, List.find?]

/-- Overwriting a key preserves every present key. -/
theorem dictContains_dictInsertL_of (kvs : List (String × Json)) (k : String) (v : Json)
    (f : String) (h : dictContains kvs f = true) :
    dictContains (dictInsertL k v kvs) f = true := by
  induction kvs with
  | nil => simp [dictContains] at h
  | cons kv rest ih =>
    cases kv with
    | mk k' v' =>
      by_cases hk : k' = k
      · subst hk
        simp only [dictInsertL, if_pos rfl]
        simpa only [dictContains, List.any_cons] using h
      · simp only [dictInsertL, if_neg hk]
        simp only [dictContains, List.any_cons, Bool.or_eq_true] at h ⊢
        cases h with
        | inl h1 => exact Or.inl h1
        | inr h2 => exact Or.inr (ih h2)

/-- A present key has a stored value. -/
theorem dictGet_some_of_contains (kvs : List (String × Json)) (f : String)
    (h : dictContains kvs f = true) : ∃ v, dictGet kvs f = some v := by
  induction kvs with
  | nil => simp [dictContains] at h
  | cons kv rest ih =>
    by_cases hk : kv.1 = f
    · exact ⟨kv.2, by simp [dictGet, List.find?, hk]⟩
    · simp only [dictContains, List.any_cons, decide_eq_true_eq, hk, false_or,
        Bool.false_or] at h
      obtain ⟨v, hv⟩ := ih h
      refine ⟨v, ?_⟩
      simpa [dictGet, List.find?, hk] using hv

/-! ## Claim theorems -/

/-- C1 (counterexample): a reply whose bpm record violates
`min ≤ most_common ≤ max` (min 200, most_common 100, max 150) is accepted
by the analysis normalizer and returned with the violation intact — no
±20 widening happens in the normalizer. -/
theorem c1_normalizer_accepts_unordered_bpm :
    (analyzeAttempt "\x7b\"general_description\": \"d\", \"bpm_range\": \x7b\"min\": 200, \"max\": 150, \"most_common\": 100\x7d, \"instruments\": \x7b\x7d, \"key_distribution\": \x7b\x7d, \"mood_description\": \"m\", \"genre_analysis\": \"g\"\x7d").map
      bpmOrderedB = some false := rfl

/-- C1 (amended): the `min ≤ most_common ≤ max` invariant, with a violated
bound recomputed at ±20, is enforced by the chart layer's bounds
normalization (`create_bpm_chart`, src/visualization.py lines 40-46) for
every non-negative `most_common`, not by the analysis normalizer. -/
theorem c1_chart_widen_ordered :
    ∀ mn mx mc : Int, 0 ≤ mc → (widenBpm mn mx mc).1 ≤ mc ∧ mc ≤ (widenBpm mn mx mc).2 := by
  intro mn mx mc hmc
  unfold widenBpm
  dsimp only
  split_ifs <;> constructor <;> dsimp only <;> omega

/-- Witness for `c1_chart_widen_ordered` at the counterexample's bpm
triple. -/
theorem c1_chart_widen_witness :
    (widenBpm 200 150 100).1 ≤ (100 : Int) ∧ (100 : Int) ≤ (widenBpm 200 150 100).2 :=
  c1_chart_widen_ordered 200 150 100 (by norm_num)

/-- C2 (counterexample): the reply `{"bpm_range": "fast"}` is accepted and
normalized into a record that neither matches the §3 schema types
(`bpm_range` stays the string `"fast"`, untouched by the guarded bpm
defaulting) nor is an error marker with a single string key. -/
theorem c2_partially_typed_record_returned :
    (analyzeAttempt "\x7b\"bpm_range\": \"fast\"\x7d").map
      (fun out => analysisWellTypedB out || analysisErrorMarkerB out) = some false := rfl

/-- C3: the fenced reply with only `general_description` present
normalizes to a record with that value kept, the sentinel string on every
other mandatory text field, empty mappings on the mapping fields, and the
80/120/160 bpm defaults. -/
theorem c3_fenced_partial_reply_defaults :
    analyzeAttempt "Here you go:\n```json\n\x7b\"general_description\": \"x\"\x7d\n```" =
      some (Json.obj
        [("general_description", Json.str "x"),
         ("bpm_range", Json.obj
           [("min", Json.num 80), ("max", Json.num 160), ("most_common", Json.num 120)]),
         ("instruments", Json.obj []),
         ("key_distribution", Json.obj []),
         ("mood_description", Json.str "Analysis incomplete"),
         ("genre_analysis", Json.str "Analysis incomplete")]) := rfl

/-- C4: adjacent object literals with the comma missing are repaired
(`"}{"` to `"},{"`), and the two records come back with `artist`,
`reasoning` and `spotify_url` placeholder-filled and `attributes` the
empty mapping. -/
theorem c4_missing_comma_repaired :
    recAttempt "[\x7b\"title\":\"A\"\x7d\x7b\"title\":\"B\"\x7d]" =
      some [Json.obj
        [("title", Json.str "A"), ("artist", Json.str "Not specified"),
         ("reasoning", Json.str "Not specified"), ("attributes", Json.obj []),
         ("spotify_url", Json.str "Not specified")],
       Json.obj
        [("title", Json.str "B"), ("artist", Json.str "Not specified"),
         ("reasoning", Json.str "Not specified"), ("attributes", Json.obj []),
         ("spotify_url", Json.str "Not specified")]] := rfl

/-- C5 (counterexample): in the reply `[{"title": null}]` the element's
present-but-null `title` survives normalization (the loop only tests key
presence), so not every returned element has non-null values for the five
required keys. -/
theorem c5_null_title_survives :
    (recAttempt "[\x7b\"title\": null\x7d]").map (fun l => l.all recElemNonNullB) = some false := rfl

/-- C6 (counterexample): for the fenced reply `"Reply:\n```json\n{\"a\": 1}\n```"`
the extraction step does not recover the inner content of the fence
byte-identically — it returns the content with its leading and trailing
whitespace stripped. -/
theorem c6_extraction_strips_whitespace :
    analyzeExtract "Reply:\n```json\n\x7b\"a\": 1\x7d\n```" ≠ "\n\x7b\"a\": 1\x7d\n" ∧
    analyzeExtract "Reply:\n```json\n\x7b\"a\": 1\x7d\n```" = "\x7b\"a\": 1\x7d" :=
  ⟨by decide, rfl⟩

/-- C7: when every reply of the five attempts fails the
parse-and-validate stage, `analyze_playlist` runs all `maxRetries`
attempts and returns the hardcoded default analysis record instead of
raising. -/
theorem c7_retries_then_hardcoded_default :
    ∀ gen : Nat → String, (∀ i ∈ List.range maxRetries, analyzeAttempt (gen i) = none) →
      analyzePlaylist gen = defaultAnalysis := by
  intro gen h
  unfold analyzePlaylist
  rw [tryFrom_eq_none _ maxRetries 0
    (fun j _ hj2 => h j (List.mem_range.mpr (by omega)))]
  rfl

/-- Witness for `c7_retries_then_hardcoded_default` on a model whose
replies are never JSON. -/
theorem c7_witness :
    analyzePlaylist (fun _ => "not json") = defaultAnalysis :=
  c7_retries_then_hardcoded_default (fun _ => "not json")
    (by intro i hi; rw [List.mem_range] at hi; have hi5 : i < 5 := hi; interval_cases i <;> rfl)

/-- C8: a rate-limited page response makes the pagination loop sleep for
the `Retry-After` value (5 when the header is absent) and re-issue the
request with the offset unchanged, while any other API error aborts the
fetch with the surfaced `"Spotify API Error"` message. -/
theorem c8_rate_limit_and_error_handling :
    ∀ (resps : List PageResult) (off : Nat) (acc : List TrackRec)
      (evs : List FetchEvent) (h : Option Nat) (status : Nat) (msg : String),
      fetchGo (PageResult.rateLimited h :: resps) off acc evs =
        fetchGo resps off acc (evs ++ [FetchEvent.rateWait (h.getD 5)]) ∧
      fetchGo (PageResult.apiError status msg :: resps) off acc evs =
        FetchOutcome.failed (spotifyErrorMsg status msg) evs := by
  intro resps off acc evs h status msg
  exact ⟨rfl, rfl⟩

/-- C9 (counterexample): on an analysis prompt with three track lines the
fallback model's reply depends on the hidden random-sampler state — two
equally possible `random.sample` outcomes (original and reversed order)
give different texts — and neither reply is the fixed error-shaped JSON
string. -/
theorem c9_mock_reply_not_deterministic :
    mockResponseText mockTripleTrackPrompt (fun l => l) (fun _ => 0) =
      Except.ok mockTripleTrackReplyFwd ∧
    mockResponseText mockTripleTrackPrompt (fun l => List.reverse l) (fun _ => 0) =
      Except.ok mockTripleTrackReplyRev ∧
    mockTripleTrackReplyFwd ≠ mockTripleTrackReplyRev ∧
    mockTripleTrackReplyFwd ≠ mockStatusFallbackText :=
  ⟨rfl, rfl, by decide, by decide⟩

/-- C9 (amended): the fixed error-shaped JSON string `{"status":"fallback"}`
is the fallback model's reply exactly for prompts recognized as neither
analysis nor recommendation requests, and on those prompts the reply is
independent of the random sampler and of `hash` — a parseable text is
always handed to the normalizer. -/
theorem c9_unrecognized_prompt_fixed_reply :
    ∀ (p : String) (sample : List String → List String) (hashF : String → Nat),
      containsSubS p "analyze these songs" = false →
      containsSubS p "recommend" = false →
      mockResponseText p sample hashF = Except.ok mockStatusFallbackText := by
  intro p sample hashF h1 h2
  unfold mockResponseText
  rw [h1, h2]
  rfl

/-- Witness for `c9_unrecognized_prompt_fixed_reply` at the probe prompt
`"Hello"` that `setup_gemini` actually sends. -/
theorem c9_fixed_reply_witness :
    mockResponseText "Hello" (fun l => l) (fun _ => 0) = Except.ok mockStatusFallbackText :=
  c9_unrecognized_prompt_fixed_reply "Hello" (fun l => l) (fun _ => 0) rfl rfl

/-- C10 (counterexample): on the analysis mapping
`{"general_description": 5}` with every model attempt failing,
`get_song_recommendations` raises (the fallback selector calls `.lower()`
on the non-string description inside the exception handler) instead of
returning a hardcoded fallback list. -/
theorem c10_nonstring_description_raises :
    getSongRecommendations [("general_description", Json.num 5)] (fun _ => "x") =
      Except.error () := rfl

/-- After `fixBpm`, whenever `bpm_range` holds a mapping, the three bpm
keys are present in it. -/
theorem fixBpm_subkeys (kvs0 : List (String × Json)) :
    ∀ b', dictGet (fixBpm kvs0) "bpm_range" = some (Json.obj b') →
      dictContains b' "min" = true ∧ dictContains b' "max" = true ∧
      dictContains b' "most_common" = true := by
  intro b' hb'
  unfold fixBpm at hb'
  split at hb'
  case _ b heq =>
    rw [dictGet_dictInsertL_self] at hb'
    simp only [Option.some.injEq, Json.obj.injEq] at hb'
    subst hb'
    refine ⟨?_, ?_, ?_⟩ <;>
      exact dictContains_fillFields_mem _ _ _ (by simp)
  case _ hne =>
    exact absurd hb' (hne b')

/-- Every record the analysis normalizer accepts comes back with all
mandatory keys present. -/
theorem analyzeAttempt_some_keyed (r : String) (out : Json)
    (h : analyzeAttempt r = some out) : analysisFullyKeyed out := by
  unfold analyzeAttempt at h
  dsimp only at h
  split at h
  case _ j heq =>
    cases j with
    | obj kvs =>
      simp only [validateAnalysis, Option.some.injEq] at h
      subst h
      refine ⟨fixBpm (fillRequired kvs), rfl, ?_, fixBpm_subkeys _⟩
      intro f hf
      have h1 : dictContains (fillRequired kvs) f = true := by
        apply dictContains_fillFields_mem
        simpa [List.map_map, Function.comp] using hf
      unfold fixBpm
      split
      · exact dictContains_dictInsertL_of _ _ _ _ h1
      · exact h1
    | null => exact absurd h (by simp [validateAnalysis])
    | bool b => exact absurd h (by simp [validateAnalysis])
    | num n => exact absurd h (by simp [validateAnalysis])
    | str s => exact absurd h (by simp [validateAnalysis])
    | arr xs => exact absurd h (by simp [validateAnalysis])
  case _ => exact absurd h (by simp)

/-- The hardcoded default analysis record is itself fully keyed. -/
theorem defaultAnalysis_fully_keyed : analysisFullyKeyed defaultAnalysis := by
  refine ⟨_, rfl, by decide, ?_⟩
  intro b hb
  have h0 : dictGet
      [("general_description", Json.str "This playlist exhibits a sophisticated musical dialect that weaves together multiple sonic vocabularies into a cohesive linguistic tapestry, suggesting a curator with an ear for conversational harmonies across diverse musical traditions."),
       ("bpm_range", Json.obj [("min", Json.num 80), ("max", Json.num 160), ("most_common", Json.num 120)]),
       ("instruments", Json.obj
         [("Guitar", Json.str "high"), ("Piano", Json.str "medium"), ("Drums", Json.str "high"),
          ("Bass", Json.str "high"), ("Synthesizer", Json.str "medium"), ("Vocals", Json.str "high")]),
       ("key_distribution", Json.obj
         [("C Major", Json.num 5), ("G Major", Json.num 4), ("A Minor", Json.num 3),
          ("D Major", Json.num 2), ("E Minor", Json.num 2)]),
       ("mood_description", Json.str "The emotional linguistics of this collection create a dynamic conversation between introspective moments and energetic expressions, forming a complete emotional narrative."),
       ("genre_analysis", Json.str "This collection speaks multiple genre dialects fluently, creating a multi-lingual musical experience that transcends traditional genre boundaries while maintaining coherent communication.")]
      "bpm_range" =
      some (Json.obj [("min", Json.num 80), ("max", Json.num 160), ("most_common", Json.num 120)]) := rfl
  rw [h0] at hb
  simp only [Option.some.injEq, Json.obj.injEq] at hb
  subst hb
  decide

/-- C2 (amended): whatever the model replies on each attempt,
`analyze_playlist` hands its caller a mapping in which every mandatory key
of the schema is present — filled with its type-appropriate default when
absent — and in which the bpm sub-keys are present whenever `bpm_range`
is a mapping; values already present are passed through without type
checking, and no error-marker return exists on the analysis side. -/
theorem c2_always_fully_keyed :
    ∀ gen : Nat → String, analysisFullyKeyed (analyzePlaylist gen) := by
  intro gen
  unfold analyzePlaylist
  cases ht : tryFrom (fun i => analyzeAttempt (gen i)) 0 maxRetries with
  | some out =>
    obtain ⟨j, _, _, hj⟩ := tryFrom_eq_some _ _ _ _ ht
    exact analyzeAttempt_some_keyed _ _ hj
  | none =>
    exact defaultAnalysis_fully_keyed

/-- A list the recommendation normalizer accepts is non-empty (an empty
survivor list raises `ValueError` and is retried instead). -/
theorem recAttempt_some_ne_nil (r : String) (l : List Json)
    (h : recAttempt r = some l) : l ≠ [] := by
  unfold recAttempt at h
  dsimp only at h
  split at h
  · exact absurd h (by simp)
  · split at h
    case _ hEmpty =>
      exact absurd h (by simp)
    case _ hEmpty =>
      simp only [Option.some.injEq] at h
      subst h
      intro hnil
      rw [hnil] at hEmpty
      simp at hEmpty

/-- C5 (amended): every element of a list the recommendation normalizer
returns is a mapping in which each of the five required keys is present —
missing keys are placeholder-filled, non-mapping elements are discarded —
while a key already present keeps whatever value the model supplied
(possibly null). -/
theorem c5_every_element_keyed :
    ∀ (r : String) (l : List Json), recAttempt r = some l →
      ∀ e ∈ l, ∃ kvs, e = Json.obj kvs ∧ ∀ f ∈ recFields, dictContains kvs f = true := by
  intro r l h e he
  unfold recAttempt at h
  dsimp only at h
  split at h
  · exact absurd h (by simp)
  · split at h
    case _ hEmpty => exact absurd h (by simp)
    case _ hEmpty =>
      simp only [Option.some.injEq] at h
      subst h
      obtain ⟨r0, hr0, hg⟩ := List.mem_filterMap.mp he
      split at hg
      case _ heq kvs0 =>
        simp only [Option.some.injEq] at hg
        subst hg
        refine ⟨fillRec kvs0, rfl, ?_⟩
        intro f hf
        apply dictContains_fillFields_mem
        simpa [List.map_map, Function.comp] using hf
      case _ =>
        exact absurd hg (by simp)

/-- Witness for `c5_every_element_keyed` on the reply `[{}]`, whose one
record is entirely placeholder-filled. -/
theorem c5_keyed_witness :
    ∃ kvs, Json.obj (fillRec []) = Json.obj kvs ∧
      ∀ f ∈ recFields, dictContains kvs f = true :=
  c5_every_element_keyed "[\x7b\x7d]" [Json.obj (fillRec [])] rfl
    (Json.obj (fillRec [])) (by simp)

/-- The fallback selector returns one of the three hardcoded lists
whenever the analysis carries a string description and a mapping of
instruments. -/
theorem recFallback_ok (kvs : List (String × Json)) (d0 : String)
    (hgd : dictGetD kvs "general_description" (Json.str "") = Json.str d0)
    (ikvs : List (String × Json))
    (hin : dictGetD kvs "instruments" (Json.obj []) = Json.obj ikvs) :
    ∃ l, recFallback kvs = Except.ok l ∧
      (l = bollywoodFallbackRecs ∨ l = electronicFallbackRecs ∨ l = defaultFallbackRecs) := by
  unfold recFallback
  rw [hgd]
  dsimp only
  split
  · exact ⟨bollywoodFallbackRecs, rfl, Or.inl rfl⟩
  · rw [hin]
    dsimp only
    split
    · exact ⟨bollywoodFallbackRecs, rfl, Or.inl rfl⟩
    · split
      · exact ⟨electronicFallbackRecs, rfl, Or.inr (Or.inl rfl)⟩
      · split
        · exact ⟨electronicFallbackRecs, rfl, Or.inr (Or.inl rfl)⟩
        · exact ⟨defaultFallbackRecs, rfl, Or.inr (Or.inr rfl)⟩

/-- None of the three hardcoded fallback recommendation lists is empty. -/
theorem fallbackRecs_ne_nil :
    bollywoodFallbackRecs ≠ [] ∧ electronicFallbackRecs ≠ [] ∧ defaultFallbackRecs ≠ [] := by
  refine ⟨?_, ?_, ?_⟩ <;> simp [bollywoodFallbackRecs, electronicFallbackRecs, defaultFallbackRecs]

/-- C10 (amended): on every analysis mapping whose `general_description`
is a string, whose `instruments` and `key_distribution` are mappings and
whose `decade_profile` is iterable, `get_song_recommendations` never
raises and returns a non-empty list: either the survivors of a successful
attempt, or one of the three hardcoded fallback lists (each of which has
at least one element). -/
theorem c10_recommendations_nonempty :
    ∀ (kvs : List (String × Json)) (gen : Nat → String),
      isStrJ (dictGetD kvs "general_description" (Json.str "")) = true →
      isObjJ (dictGetD kvs "instruments" (Json.obj [])) = true →
      pyInOk (dictGetD kvs "decade_profile" (Json.str "")) = true →
      isObjJ (dictGetD kvs "key_distribution" (Json.obj [])) = true →
      ∃ l, getSongRecommendations kvs gen = Except.ok l ∧ l ≠ [] ∧
        (l = bollywoodFallbackRecs ∨ l = electronicFallbackRecs ∨ l = defaultFallbackRecs ∨
         ∃ i, i < maxRetries ∧ recAttempt (gen i) = some l) := by
  intro kvs gen h1 h2 h3 h4
  have hprep : recPrepOk kvs = true := by
    unfold recPrepOk
    rw [h3, h2, h4]
    rfl
  unfold getSongRecommendations
  rw [hprep]
  simp only [if_true]
  cases ht : tryFrom (fun i => recAttempt (gen i)) 0 maxRetries with
  | some l =>
    obtain ⟨j, _, hj1, hj2⟩ := tryFrom_eq_some _ _ _ _ ht
    exact ⟨l, rfl, recAttempt_some_ne_nil _ _ hj2,
      Or.inr (Or.inr (Or.inr ⟨j, by omega, hj2⟩))⟩
  | none =>
    obtain ⟨d0, hgd⟩ : ∃ d0, dictGetD kvs "general_description" (Json.str "") = Json.str d0 := by
      cases hv : dictGetD kvs "general_description" (Json.str "") <;>
        simp [isStrJ, hv] at h1 ⊢
    obtain ⟨ikvs, hin⟩ : ∃ ikvs, dictGetD kvs "instruments" (Json.obj []) = Json.obj ikvs := by
      cases hv : dictGetD kvs "instruments" (Json.obj []) <;>
        simp [isObjJ, hv] at h2 ⊢
    obtain ⟨l, hfb, hl⟩ := recFallback_ok kvs d0 hgd ikvs hin
    refine ⟨l, hfb, ?_, ?_⟩
    · rcases hl with rfl | rfl | rfl
      · exact fallbackRecs_ne_nil.1
      · exact fallbackRecs_ne_nil.2.1
      · exact fallbackRecs_ne_nil.2.2
    · rcases hl with rfl | rfl | rfl
      · exact Or.inl rfl
      · exact Or.inr (Or.inl rfl)
      · exact Or.inr (Or.inr (Or.inl rfl))

/-- Witness for `c10_recommendations_nonempty` at the empty analysis
mapping with a model whose replies never parse. -/
theorem c10_nonempty_witness :
    ∃ l, getSongRecommendations [] (fun _ => "x") = Except.ok l ∧ l ≠ [] ∧
      (l = bollywoodFallbackRecs ∨ l = electronicFallbackRecs ∨ l = defaultFallbackRecs ∨
       ∃ i, i < maxRetries ∧ recAttempt ((fun _ => "x") i) = some l) :=
  c10_recommendations_nonempty [] (fun _ => "x") rfl rfl rfl rfl

/-- A pattern is a Boolean prefix of itself extended by anything. -/
theorem isPrefixL_append_self (s r : List Char) : isPrefixL s (s ++ r) = true := by
  induction s with
  | nil => rfl
  | cons c cs ih => simp [isPrefixL, ih]

/-- A pattern whose head differs from the text's head is not a prefix. -/
theorem isPrefixL_ne_head (a c : Char) (w z : List Char) (h : a ≠ c) :
    isPrefixL (a :: w) (c :: z) = false := by
  simp [isPrefixL, h]

/-- A backtick-headed pattern is no prefix of backtick-free text. -/
theorem isPrefixL_bt_free (w post : List Char) (hpost : ∀ c ∈ post, c ≠ '\x60') :
    isPrefixL ('\x60' :: w) post = false := by
  cases post with
  | nil => rfl
  | cons p ps =>
    exact isPrefixL_ne_head '\x60' p w ps
      (fun he => (hpost p (List.mem_cons_self p ps)) he.symm)

/-- A backtick-headed pattern never occurs inside backtick-free text. -/
theorem containsSubL_bt_free (w l : List Char) (h : ∀ c ∈ l, c ≠ '\x60') :
    containsSubL ('\x60' :: w) l = false := by
  induction l with
  | nil => rfl
  | cons c cs ih =>
    have hc : c ≠ '\x60' := h c (List.mem_cons_self c cs)
    simp only [containsSubL, Bool.or_eq_false_iff]
    exact ⟨isPrefixL_ne_head '\x60' c w _ (Ne.symm hc),
      ih (fun x hx => h x (List.mem_cons_of_mem c hx))⟩

/-- Occurrence search of a backtick-headed pattern skips a backtick-free
prefix. -/
theorem containsSubL_bt_skip (w x y : List Char) (h : ∀ c ∈ x, c ≠ '\x60') :
    containsSubL ('\x60' :: w) (x ++ y) = containsSubL ('\x60' :: w) y := by
  induction x with
  | nil => rfl
  | cons c cs ih =>
    have hc : c ≠ '\x60' := h c (List.mem_cons_self c cs)
    simp only [List.cons_append, containsSubL,
      isPrefixL_ne_head '\x60' c w _ (Ne.symm hc), Bool.false_or]
    exact ih (fun x hx => h x (List.mem_cons_of_mem c hx))

/-- A separator occurs in any text that embeds it. -/
theorem containsSubL_sandwich (c : Char) (cs pre rest : List Char) :
    containsSubL (c :: cs) (pre ++ ((c :: cs) ++ rest)) = true := by
  induction pre with
  | nil =>
    simp only [List.nil_append, List.cons_append, containsSubL]
    have : isPrefixL (c :: cs) (c :: (cs ++ rest)) = true := isPrefixL_append_self (c :: cs) rest
    simp [this]
  | cons p ps ih =>
    simp only [List.cons_append] at ih ⊢
    simp [containsSubL, ih]

/-- The splitter never produces an empty list of pieces. -/
theorem splitFuelL_ne_nil (sep : List Char) (fuel : Nat) (l : List Char) :
    splitFuelL sep fuel l ≠ [] := by
  cases fuel with
  | zero => cases l <;> simp [splitFuelL]
  | succ n =>
    cases l with
    | nil => simp [splitFuelL]
    | cons c cs =>
      simp only [splitFuelL]
      split
      · simp
      · split <;> simp

/-- A text without the separator is one piece, whatever the fuel. -/
theorem splitFuelL_no_occ (sep : List Char) :
    ∀ (l : List Char) (fuel : Nat), containsSubL sep l = false →
      splitFuelL sep fuel l = [l] := by
  intro l
  induction l with
  | nil => intro fuel _; cases fuel <;> rfl
  | cons c cs ih =>
    intro fuel h
    simp only [containsSubL, Bool.or_eq_false_iff] at h
    cases fuel with
    | zero => rfl
    | succ n =>
      simp only [splitFuelL]
      rw [if_neg (by simp [h.1])]
      rw [ih n h.2]

/-- Splitting after a backtick-free prefix attaches it to the first
piece. -/
theorem splitFuelL_bt_front (w : List Char) :
    ∀ (pre l : List Char) (fuel : Nat), (∀ c ∈ pre, c ≠ '\x60') →
      splitFuelL ('\x60' :: w) (pre.length + fuel) (pre ++ l) =
        (pre ++ (splitFuelL ('\x60' :: w) fuel l).headD []) ::
          (splitFuelL ('\x60' :: w) fuel l).tail := by
  intro pre
  induction pre with
  | nil =>
    intro l fuel _
    simp only [List.nil_append, List.length_nil, Nat.zero_add]
    cases hs : splitFuelL ('\x60' :: w) fuel l with
    | nil => exact absurd hs (splitFuelL_ne_nil _ _ _)
    | cons p ps => simp
  | cons c cs ih =>
    intro l fuel h
    have hc : c ≠ '\x60' := h c (List.mem_cons_self c cs)
    have harith : (c :: cs).length + fuel = (cs.length + fuel) + 1 := by
      simp only [List.length_cons]; omega
    rw [harith]
    show splitFuelL ('\x60' :: w) ((cs.length + fuel) + 1) (c :: (cs ++ l)) = _
    simp only [splitFuelL]
    rw [if_neg (by simp [isPrefixL_ne_head '\x60' c w _ (Ne.symm hc)])]
    rw [ih l fuel (fun x hx => h x (List.mem_cons_of_mem c hx))]
    simp

/-- Splitting a fenced text at the tagged opener `"```json"` yields the
prose before the fence and everything after the tag. -/
theorem splitAllL_fenceJson (pre inner post : List Char)
    (hpre : ∀ c ∈ pre, c ≠ '\x60') (hinner : ∀ c ∈ inner, c ≠ '\x60')
    (hpost : ∀ c ∈ post, c ≠ '\x60')
    (hjson : isPrefixL ['j', 's', 'o', 'n'] post = false) :
    splitAllL fenceJsonL (pre ++ (fenceJsonL ++ (inner ++ (fenceTicksL ++ post)))) =
      [pre, inner ++ (fenceTicksL ++ post)] := by
  have e1 : isPrefixL ['\x60', '\x60', 'j', 's', 'o', 'n'] post = false :=
    isPrefixL_bt_free _ post hpost
  have e2 : isPrefixL ['\x60', 'j', 's', 'o', 'n'] post = false :=
    isPrefixL_bt_free _ post hpost
  have e3 : containsSubL ['\x60', '\x60', '\x60', 'j', 's', 'o', 'n'] post = false :=
    containsSubL_bt_free _ post hpost
  have hR : containsSubL ['\x60', '\x60', '\x60', 'j', 's', 'o', 'n']
      (inner ++ (fenceTicksL ++ post)) = false := by
    rw [containsSubL_bt_skip _ inner _ hinner]
    show containsSubL ['\x60', '\x60', '\x60', 'j', 's', 'o', 'n']
      ('\x60' :: '\x60' :: '\x60' :: post) = false
    simp [containsSubL, isPrefixL, hjson, e1, e2, e3]
  unfold splitAllL fenceJsonL fenceTicksL
  unfold fenceJsonL fenceTicksL at hR
  rw [show (pre ++ (['\x60', '\x60', '\x60', 'j', 's', 'o', 'n'] ++
      (inner ++ (['\x60', '\x60', '\x60'] ++ post)))).length =
      pre.length + ((['\x60', '\x60', '\x60', 'j', 's', 'o', 'n'] ++
      (inner ++ (['\x60', '\x60', '\x60'] ++ post)))).length from by simp]
  rw [splitFuelL_bt_front _ pre _ _ hpre]
  rw [show ((['\x60', '\x60', '\x60', 'j', 's', 'o', 'n'] ++
      (inner ++ (['\x60', '\x60', '\x60'] ++ post)))).length =
      (6 + (inner ++ (['\x60', '\x60', '\x60'] ++ post)).length) + 1 from by simp; omega]
  simp only [List.cons_append, List.nil_append] at hR
  simp only [List.cons_append, List.nil_append, splitFuelL]
  rw [if_pos ⟨by simp [isPrefixL, isPrefixL_append_self], by simp⟩]
  rw [show List.drop (['\x60', '\x60', '\x60', 'j', 's', 'o', 'n'].length - 1)
      (['\x60', '\x60', 'j', 's', 'o', 'n'].append (inner ++ '\x60' :: '\x60' :: '\x60' :: post)) =
      inner ++ '\x60' :: '\x60' :: '\x60' :: post from rfl]
  rw [splitFuelL_no_occ _ _ _ hR]
  simp

/-- Splitting the remainder at the bare `"```"` separates the inner
content from the trailing prose. -/
theorem splitAllL_ticks (inner post : List Char)
    (hinner : ∀ c ∈ inner, c ≠ '\x60') (hpost : ∀ c ∈ post, c ≠ '\x60') :
    splitAllL fenceTicksL (inner ++ (fenceTicksL ++ post)) = [inner, post] := by
  have hP : containsSubL ['\x60', '\x60', '\x60'] post = false :=
    containsSubL_bt_free _ post hpost
  unfold splitAllL fenceTicksL
  rw [show (inner ++ (['\x60', '\x60', '\x60'] ++ post)).length =
      inner.length + ((['\x60', '\x60', '\x60'] ++ post)).length from by simp]
  rw [splitFuelL_bt_front _ inner _ _ hinner]
  rw [show ((['\x60', '\x60', '\x60'] ++ post)).length = (2 + post.length) + 1 from by
    simp; omega]
  simp only [List.cons_append, List.nil_append, splitFuelL]
  rw [if_pos ⟨by simp [isPrefixL, isPrefixL_append_self], by simp⟩]
  rw [show List.drop (['\x60', '\x60', '\x60'].length - 1)
      (['\x60', '\x60'].append post) = post from rfl]
  rw [splitFuelL_no_occ _ _ _ hP]
  simp

/-- C6 (amended): for a reply whose payload sits in a `"```json"` fence —
backtick-free prose before and after the fence, backtick-free inner
content, no stray `"json"` right after the closing fence, and the reply
not itself brace-delimited — the extraction step recovers exactly the
inner content of the fence with its leading and trailing whitespace
stripped (not byte-identically), before the quote-repair pass that
`analyzeAttempt` applies afterwards. -/
theorem c6_fenced_extraction_strips_inner (pre inner post : List Char)
    (hpre : ∀ c ∈ pre, c ≠ '\x60') (hinner : ∀ c ∈ inner, c ≠ '\x60')
    (hpost : ∀ c ∈ post, c ≠ '\x60')
    (hjson : isPrefixL ['j', 's', 'o', 'n'] post = false)
    (hguard : (startsWithChar
        (String.mk (pre ++ (fenceJsonL ++ (inner ++ (fenceTicksL ++ post))))) '{' &&
      endsWithChar
        (String.mk (pre ++ (fenceJsonL ++ (inner ++ (fenceTicksL ++ post))))) '}') = false) :
    analyzeExtract (String.mk (pre ++ (fenceJsonL ++ (inner ++ (fenceTicksL ++ post))))) =
      pyStrip (String.mk inner) := by
  have hc : containsSubS
      (String.mk (pre ++ (fenceJsonL ++ (inner ++ (fenceTicksL ++ post))))) "```json" = true := by
    show containsSubL ('\x60' :: ['\x60', '\x60', 'j', 's', 'o', 'n'])
      (pre ++ (('\x60' :: ['\x60', '\x60', 'j', 's', 'o', 'n']) ++
        (inner ++ (fenceTicksL ++ post)))) = true
    exact containsSubL_sandwich '\x60' _ pre _
  have h1 : pySplit
      (String.mk (pre ++ (fenceJsonL ++ (inner ++ (fenceTicksL ++ post))))) "```json" =
      [String.mk pre, String.mk (inner ++ (fenceTicksL ++ post))] := by
    show (splitAllL fenceJsonL
      (pre ++ (fenceJsonL ++ (inner ++ (fenceTicksL ++ post))))).map String.mk = _
    rw [splitAllL_fenceJson pre inner post hpre hinner hpost hjson]
    rfl
  have h2 : pySplit (String.mk (inner ++ (fenceTicksL ++ post))) "```" =
      [String.mk inner, String.mk post] := by
    show (splitAllL fenceTicksL (inner ++ (fenceTicksL ++ post))).map String.mk = _
    rw [splitAllL_ticks inner post hinner hpost]
    rfl
  unfold analyzeExtract
  rw [hguard]
  rw [if_pos (by simp)]
  rw [if_pos hc]
  rw [h1]
  rw [show listGetD [String.mk pre, String.mk (inner ++ (fenceTicksL ++ post))] 1 "" =
      String.mk (inner ++ (fenceTicksL ++ post)) from rfl]
  rw [h2]
  rfl

/-- Witness for `c6_fenced_extraction_strips_inner` on the
counterexample's fenced reply. -/
theorem c6_extraction_witness :
    analyzeExtract (String.mk ("Reply:\n".data ++ (fenceJsonL ++
      ("\n\x7b\"a\": 1\x7d\n".data ++ (fenceTicksL ++ ([] : List Char)))))) =
      pyStrip (String.mk "\n\x7b\"a\": 1\x7d\n".data) :=
  c6_fenced_extraction_strips_inner "Reply:\n".data "\n\x7b\"a\": 1\x7d\n".data []
    (by decide) (by decide) (by decide) (by decide) (by decide)
